import Mathlib

/-!
Verification development for the Graphite node-graph document model and
scene-graph renderer.

The definitions below are a shallow embedding of the code in
`editor/src/messages/portfolio/document/node_graph/node_graph_message_handler/document_node_types.rs`,
`editor/src/messages/portfolio/document/node_graph/node_graph_message_handler/node_properties.rs` and
`node-graph/gcore/src/graphic_element/renderer.rs`.

Modelling conventions:
- machine floats (`f32`/`f64`) are modelled as rationals (`ℚ`);
- Rust panics (`assert!`, `expect`, out-of-bounds indexing, `todo!`) are
  modelled by an `Option` result, with `none` denoting the panic;
- types whose defining crate is not part of the analysed sources
  (`graph_craft::document`, `glam`, the frontend data-type enum, `quad.rs`)
  are reconstructed from the specification; each such definition carries a
  doc comment starting with `Modelled from the spec:`.
-/

/-! ## Small geometric and value types -/

/-- Node identifiers (`NodeId = u64` in the source). -/
abbrev NodeId := Nat

/-- Modelled from the spec: the opaque type token attached to a free-input or
short-circuit binding (`graph_craft`'s `Type`, built with the `concrete!` or
`generic!` macros; the crate defining it is not part of the sources). A token
is identified by the textual name of the Rust type it denotes. -/
inductive Ty where
  | concrete (name : String)
  | generic (name : String)
deriving DecidableEq

/-- Modelled from the spec: glam's `DVec2`, a 2-vector of `f64` (floats are
modelled as rationals). -/
structure DVec2 where
  x : ℚ
  y : ℚ
deriving DecidableEq

def DVec2.ZERO : DVec2 := ⟨0, 0⟩

def DVec2.ONE : DVec2 := ⟨1, 1⟩

def DVec2.splat (v : ℚ) : DVec2 := ⟨v, v⟩

def DVec2.add (a b : DVec2) : DVec2 := ⟨a.x + b.x, a.y + b.y⟩

instance : Add DVec2 := ⟨DVec2.add⟩

/-- Componentwise minimum (glam `DVec2::min`). -/
def DVec2.minc (a b : DVec2) : DVec2 := ⟨min a.x b.x, min a.y b.y⟩

/-- Componentwise maximum (glam `DVec2::max`). -/
def DVec2.maxc (a b : DVec2) : DVec2 := ⟨max a.x b.x, max a.y b.y⟩

/-- Modelled from the spec: glam's `IVec2`, a 2-vector of `i32`. -/
structure IVec2 where
  x : Int
  y : Int
deriving DecidableEq

def IVec2.ZERO : IVec2 := ⟨0, 0⟩

def IVec2.as_dvec2 (v : IVec2) : DVec2 := ⟨(v.x : ℚ), (v.y : ℚ)⟩

def IVec2.add (a b : IVec2) : IVec2 := ⟨a.x + b.x, a.y + b.y⟩

instance : Add IVec2 := ⟨IVec2.add⟩

/-- Modelled from the spec: glam's `DMat2` (2×2 matrix of `f64`), stored as
two column vectors. -/
structure DMat2 where
  x_axis : DVec2
  y_axis : DVec2
deriving DecidableEq

def DMat2.ZERO : DMat2 := ⟨DVec2.ZERO, DVec2.ZERO⟩

def DMat2.IDENTITY : DMat2 := ⟨⟨1, 0⟩, ⟨0, 1⟩⟩

/-- Matrix–vector product (column-vector convention, as in glam). -/
def DMat2.mulVec (m : DMat2) (v : DVec2) : DVec2 :=
  ⟨m.x_axis.x * v.x + m.y_axis.x * v.y, m.x_axis.y * v.x + m.y_axis.y * v.y⟩

/-- Matrix–matrix product. -/
def DMat2.mul (a b : DMat2) : DMat2 := ⟨a.mulVec b.x_axis, a.mulVec b.y_axis⟩

instance : Mul DMat2 := ⟨DMat2.mul⟩

/-- Modelled from the spec: glam's `DAffine2` — a 2×2 linear part plus a
translation. -/
structure DAffine2 where
  matrix2 : DMat2
  translation : DVec2
deriving DecidableEq

def DAffine2.IDENTITY : DAffine2 := ⟨DMat2.IDENTITY, DVec2.ZERO⟩

def DAffine2.ZERO : DAffine2 := ⟨DMat2.ZERO, DVec2.ZERO⟩

/-- Affine composition, glam's `Mul for DAffine2`:
`(a * b).transform_point2 p = a.transform_point2 (b.transform_point2 p)`. -/
def DAffine2.mul (a b : DAffine2) : DAffine2 :=
  ⟨a.matrix2 * b.matrix2, (a.matrix2.mulVec b.translation) + a.translation⟩

instance : Mul DAffine2 := ⟨DAffine2.mul⟩

def DAffine2.transform_point2 (t : DAffine2) (p : DVec2) : DVec2 :=
  (t.matrix2.mulVec p) + t.translation

/-- An RGBA color with rational channels (gcore's `Color`; channel values of
the named constants are taken from the source constants). -/
structure Color where
  red : ℚ
  green : ℚ
  blue : ℚ
  alpha : ℚ
deriving DecidableEq

def Color.BLACK : Color := ⟨0, 0, 0, 1⟩

def Color.WHITE : Color := ⟨1, 1, 1, 1⟩

/-- A raw pixel buffer (gcore's `Image<Color>`). -/
structure Image where
  width : Nat
  height : Nat
  data : List Color
deriving DecidableEq

/-- `Image::empty()`: a 0×0 image. -/
def Image.empty : Image := ⟨0, 0, []⟩

/-- An image plus its own affine transform (gcore's `ImageFrame<Color>`). -/
structure ImageFrame where
  image : Image
  transform : DAffine2
deriving DecidableEq

/-- Modelled from the spec: `ImageFrame::empty()` (defined in gcore's
`raster` module, not among the sources) — the empty image with a degenerate
(zero) transform, so that an empty frame has no bounding box. -/
def ImageFrame.empty : ImageFrame := ⟨Image.empty, DAffine2.ZERO⟩

/-- Modelled from the spec: vector-path data (gcore's `VectorData`). Path
geometry is modelled as polylines of points; the curve structure is not
load-bearing for any claim. -/
structure VectorData where
  subpaths : List (List DVec2)
  transform : DAffine2
deriving DecidableEq

def VectorData.empty : VectorData := ⟨[], DAffine2.IDENTITY⟩

/-- A font descriptor (gcore's `Font`: family and style names). -/
structure Font where
  font_family : String
  font_style : String
deriving DecidableEq

/-! ## Enumerated choices (transcribed from `gcore/src/raster/adjustments.rs`
and, for the vector-style and Imaginate enums whose defining files are not
among the sources, modelled from the spec with the variants used by the
catalog) -/

inductive LuminanceCalculation where
  | SRGB
  | Perceptual
  | AverageChannels
  | MinimumChannels
  | MaximumChannels
deriving DecidableEq

inductive BlendMode where
  | Normal
  | Multiply
  | Darken
  | ColorBurn
  | LinearBurn
  | DarkerColor
  | Screen
  | Lighten
  | ColorDodge
  | LinearDodge
  | LighterColor
  | Overlay
  | SoftLight
  | HardLight
  | VividLight
  | LinearLight
  | PinLight
  | HardMix
  | Difference
  | Exclusion
  | Subtract
  | Divide
  | Hue
  | Saturation
  | Color
  | Luminosity
  | Erase
  | Restore
  | MultiplyAlpha
deriving DecidableEq

inductive RedGreenBlue where
  | Red
  | Green
  | Blue
deriving DecidableEq

inductive RelativeAbsolute where
  | Relative
  | Absolute
deriving DecidableEq

/-- Discriminant of `RelativeAbsolute` (`as u32` in the source). -/
def RelativeAbsolute.toIndex : RelativeAbsolute → Nat
  | .Relative => 0
  | .Absolute => 1

inductive SelectiveColorChoice where
  | Reds
  | Yellows
  | Greens
  | Cyans
  | Blues
  | Magentas
  | Whites
  | Neutrals
  | Blacks
deriving DecidableEq

/-- Discriminant of `SelectiveColorChoice` (`as u32` in the source). -/
def SelectiveColorChoice.toIndex : SelectiveColorChoice → Nat
  | .Reds => 0
  | .Yellows => 1
  | .Greens => 2
  | .Cyans => 3
  | .Blues => 4
  | .Magentas => 5
  | .Whites => 6
  | .Neutrals => 7
  | .Blacks => 8

/-- `Display` for `SelectiveColorChoice` (`to_string` in the source). -/
def SelectiveColorChoice.toText : SelectiveColorChoice → String
  | .Reds => "Reds"
  | .Yellows => "Yellows"
  | .Greens => "Greens"
  | .Cyans => "Cyans"
  | .Blues => "Blues"
  | .Magentas => "Magentas"
  | .Whites => "Whites"
  | .Neutrals => "Neutrals"
  | .Blacks => "Blacks"

/-- Modelled from the spec: `graphene_core::vector::style::FillType`. -/
inductive FillType where
  | None
  | Solid
  | Gradient
deriving DecidableEq

/-- Modelled from the spec: `graphene_core::vector::style::GradientType`. -/
inductive GradientType where
  | Linear
  | Radial
deriving DecidableEq

/-- Modelled from the spec: `graphene_core::vector::style::LineCap`. -/
inductive LineCap where
  | Butt
  | Round
  | Square
deriving DecidableEq

/-- Modelled from the spec: `graphene_core::vector::style::LineJoin`. -/
inductive LineJoin where
  | Miter
  | Bevel
  | Round
deriving DecidableEq

/-- Modelled from the spec: `ImaginateSamplingMethod` (only the default
variant occurs in the catalog data). -/
inductive ImaginateSamplingMethod where
  | EulerA
  | Euler
  | LMS
  | Heun
  | DPM2
  | DPM2A
deriving DecidableEq

/-- Modelled from the spec: `ImaginateMaskStartingFill`. -/
inductive ImaginateMaskStartingFill where
  | Fill
  | Original
  | LatentNoise
  | LatentNothing
deriving DecidableEq

/-! ## The value model -/

/-- Modelled from the spec: the closed tagged union of all strongly typed
values a node input can carry (`graph_craft::document::value::TaggedValue`;
the defining crate is not among the sources — spec §3 "Value").

Constructors carry their payload wherever its structure is cheap to
reproduce; the payloads of `documentNode`, `graphicGroup`,
`imaginateController`, `brushCache` and `brushStrokes` are elided because the
catalog only ever stores the default/empty value of those types and no claim
inspects them. -/
inductive TaggedValue where
  | none
  | bool (b : Bool)
  | f32 (v : ℚ)
  | f64 (v : ℚ)
  | u32 (n : Nat)
  | string (s : String)
  | dvec2 (v : DVec2)
  | ivec2 (v : IVec2)
  | optionalDVec2 (v : Option DVec2)
  | daffine2 (m : DAffine2)
  | color (c : Color)
  | optionalColor (c : Option Color)
  | blendMode (m : BlendMode)
  | luminanceCalculation (l : LuminanceCalculation)
  | redGreenBlue (c : RedGreenBlue)
  | relativeAbsolute (r : RelativeAbsolute)
  | selectiveColorChoice (c : SelectiveColorChoice)
  | fillType (f : FillType)
  | gradientType (g : GradientType)
  | gradientPositions (ps : List (ℚ × Option Color))
  | lineCap (c : LineCap)
  | lineJoin (j : LineJoin)
  | image (i : Image)
  | imageFrame (f : ImageFrame)
  | vectorData (v : VectorData)
  | subpaths (s : List (List DVec2))
  | manipulatorGroupIds (ids : List Nat)
  | font (f : Font)
  | vecF32 (xs : List ℚ)
  | layerPath (p : Option (List Nat))
  | segments (s : List ImageFrame)
  | documentNode
  | graphicGroup
  | imaginateController
  | imaginateSamplingMethod (m : ImaginateSamplingMethod)
  | imaginateMaskStartingFill (f : ImaginateMaskStartingFill)
  | brushStrokes
  | brushCache
deriving DecidableEq

/-- Modelled from the spec: the frontend's semantic data-type enum
(`FrontendGraphDataType`, defined in `node_graph_message_handler.rs`, which
is not among the sources). Variants are those referenced by the two editor
source files. -/
inductive FrontendGraphDataType where
  | General
  | Raster
  | Color
  | Number
  | Boolean
  | Vector
  | Text
  | Subpath
  | GraphicGroup
  | Artboard
deriving DecidableEq

/-- Modelled from the spec: `FrontendGraphDataType::with_tagged_value`, the
mapping from a value's tag to the semantic data type it matches (spec §4.1:
"a literal default's Value tag must match the slot's declared semantic
type"; e.g. a numeric tag matches `Number`, a color tag matches `Color`, a
string matches `Text` — the latter is also the data type used by the string
widgets in `node_properties.rs`). Tags with no dedicated frontend type map
to `General`. -/
def FrontendGraphDataType.with_tagged_value : TaggedValue → FrontendGraphDataType
  | .string _ => .Text
  | .f32 _ => .Number
  | .f64 _ => .Number
  | .u32 _ => .Number
  | .bool _ => .Boolean
  | .dvec2 _ => .Vector
  | .ivec2 _ => .Vector
  | .optionalDVec2 _ => .Vector
  | .image _ => .Raster
  | .imageFrame _ => .Raster
  | .color _ => .Color
  | .optionalColor _ => .Color
  | .subpaths _ => .Subpath
  | .vectorData _ => .Subpath
  | .graphicGroup => .GraphicGroup
  | _ => .General

/-! ## Input slot bindings and node instances -/

/-- Modelled from the spec: `graph_craft::document::NodeInput` (spec §3
"Input Slot Binding"): a node-output reference (optionally lazy), a literal
value with an exposed flag, a network-level free input, or a short-circuit
marker. The `ShortCircut` spelling follows the source. -/
inductive NodeInput where
  | node (node_id : NodeId) (output_index : Nat) (lazy : Bool)
  | value (tagged_value : TaggedValue) (exposed : Bool)
  | network (ty : Ty)
  | shortCircut (ty : Ty)
deriving DecidableEq

/-- `NodeInput::node(id, idx)` — an eager node-output reference. -/
def NodeInput.nodeRef (node_id : NodeId) (output_index : Nat) : NodeInput :=
  .node node_id output_index false

/-- `NodeInput::lambda(id, idx)` — a lazy node-output reference. -/
def NodeInput.lambda (node_id : NodeId) (output_index : Nat) : NodeInput :=
  .node node_id output_index true

/-- Modelled from the spec: `NodeInput::is_exposed` — a literal value is
exposed iff its flag says so, a node connection is always visible, the
remaining binding kinds have no graph connector. -/
def NodeInput.is_exposed : NodeInput → Bool
  | .node _ _ _ => true
  | .value _ exposed => exposed
  | .network _ => false
  | .shortCircut _ => false

/-- A reference to a node's output within a network
(`graph_craft::document::NodeOutput`). -/
structure NodeOutput where
  node_id : NodeId
  node_output_index : Nat
deriving DecidableEq

def NodeOutput.new (node_id : NodeId) (node_output_index : Nat) : NodeOutput :=
  ⟨node_id, node_output_index⟩

/-- Modelled from the spec: editor-only node metadata (canvas position);
spec §3 notes it "carries no computational meaning". -/
structure DocumentNodeMetadata where
  position : IVec2
deriving DecidableEq

def DocumentNodeMetadata.default : DocumentNodeMetadata := ⟨IVec2.ZERO⟩

def DocumentNodeMetadata.position_at (x y : Int) : DocumentNodeMetadata := ⟨⟨x, y⟩⟩

mutual
/-- Modelled from the spec: a node instance's implementation
(`graph_craft::document::DocumentNodeImplementation`): a nested network, an
unresolved primitive-operation identifier, or the extract marker. -/
inductive DocumentNodeImplementation where
  | network (inner : NodeNetwork)
  | unresolved (ident : String)
  | extract

/-- Modelled from the spec: a node instance
(`graph_craft::document::DocumentNode`): name, ordered input bindings, an
implementation and editor-only metadata (spec §3 "Node Instance"). -/
inductive DocumentNode where
  | mk (name : String) (inputs : List NodeInput)
       (implementation : DocumentNodeImplementation)
       (metadata : DocumentNodeMetadata)

/-- Modelled from the spec: a node network
(`graph_craft::document::NodeNetwork`): the free-input list (node ids
receiving each network-level input), the exposed outputs, and the id-keyed
node map (spec §3 "Node Network"; the map is modelled as an association
list, matching the map's iteration-order-irrelevant contract). -/
inductive NodeNetwork where
  | mk (inputs : List NodeId) (outputs : List NodeOutput)
       (nodes : List (NodeId × DocumentNode))
end

def DocumentNode.name : DocumentNode → String
  | .mk n _ _ _ => n

def DocumentNode.inputs : DocumentNode → List NodeInput
  | .mk _ i _ _ => i

def DocumentNode.implementation : DocumentNode → DocumentNodeImplementation
  | .mk _ _ impl _ => impl

def DocumentNode.metadata : DocumentNode → DocumentNodeMetadata
  | .mk _ _ _ m => m

def DocumentNode.withInputs (n : DocumentNode) (inputs : List NodeInput) : DocumentNode :=
  .mk n.name inputs n.implementation n.metadata

def NodeNetwork.inputs : NodeNetwork → List NodeId
  | .mk i _ _ => i

def NodeNetwork.outputs : NodeNetwork → List NodeOutput
  | .mk _ o _ => o

def NodeNetwork.nodes : NodeNetwork → List (NodeId × DocumentNode)
  | .mk _ _ n => n

def NodeNetwork.withInputs (net : NodeNetwork) (inputs : List NodeId) : NodeNetwork :=
  .mk inputs net.outputs net.nodes

/-! ## Node type descriptors (`document_node_types.rs`) -/

/-- `DocumentInputType`: a named input slot with a declared semantic type
and a default binding. -/
structure DocumentInputType where
  name : String
  data_type : FrontendGraphDataType
  default : NodeInput
deriving DecidableEq

/-- `DocumentInputType::value`: build a slot from a literal value, deriving
the declared data type from the value's tag. -/
def DocumentInputType.value (name : String) (tagged_value : TaggedValue) (exposed : Bool) :
    DocumentInputType :=
  { name := name
    data_type := FrontendGraphDataType.with_tagged_value tagged_value
    default := NodeInput.value tagged_value exposed }

/-- `DocumentInputType::none()`. -/
def DocumentInputType.noneSlot : DocumentInputType :=
  { name := "None", data_type := .General, default := NodeInput.value .none false }

/-- `DocumentOutputType`: a named output slot with a declared semantic type. -/
structure DocumentOutputType where
  name : String
  data_type : FrontendGraphDataType
deriving DecidableEq

def DocumentOutputType.new (name : String) (data_type : FrontendGraphDataType) :
    DocumentOutputType :=
  ⟨name, data_type⟩

/-- `NodeImplementation`: a descriptor's implementation — a primitive
(proto-node) identifier, a nested network, or the extract marker. -/
inductive NodeImplementation where
  | proto (ident : String)
  | documentNode (network : NodeNetwork)
  | extract

/-- `DocumentNodeType`: the static metadata record of one built-in node
type. The UI property-layout callback field is omitted from the model: it
is a function pointer into the widget layer, identical in kind for every
entry, and no claim inspects it through the descriptor (the selective-color
callback is modelled standalone below). -/
structure DocumentNodeType where
  name : String
  category : String
  identifier : NodeImplementation
  inputs : List DocumentInputType
  outputs : List DocumentOutputType
  primary_output : Bool := false

/-- `DocumentNodeType::generate_implementation`: a primitive identifier is
carried through unchanged, a nested network is cloned into the instance,
the extract marker is carried through. -/
def DocumentNodeType.generate_implementation (self : DocumentNodeType) :
    DocumentNodeImplementation :=
  match self.identifier with
  | .documentNode network => .network network
  | .proto ident => .unresolved ident
  | .extract => .extract

/-- `DocumentNodeType::to_document_node`: instantiate the descriptor with
concrete input bindings. The source asserts
`inputs.len() == self.inputs.len()`; the assertion failure is modelled as
`none`. -/
def DocumentNodeType.to_document_node (self : DocumentNodeType)
    (inputs : List NodeInput) (metadata : DocumentNodeMetadata) :
    Option DocumentNode :=
  if inputs.length = self.inputs.length then
    some (.mk self.name inputs self.generate_implementation metadata)
  else
    Option.none

/-- `DocumentNodeType::to_document_node_default_inputs`: each
present-and-non-empty entry of `input_override` overrides the corresponding
default by position (`next().unwrap_or_default().unwrap_or_else(default)`
in the source); a missing or empty entry falls back to the slot's default
binding. `overrideInputs` realises the zip of the slot list with the
override iterator: one override entry is consumed per slot, an exhausted
or empty entry yielding the slot's default. -/
def overrideInputs : List DocumentInputType → List (Option NodeInput) → List NodeInput
  | [], _ => []
  | slot :: slots, [] => slot.default :: overrideInputs slots []
  | slot :: slots, o :: os => o.getD slot.default :: overrideInputs slots os

def DocumentNodeType.to_document_node_default_inputs (self : DocumentNodeType)
    (input_override : List (Option NodeInput)) (metadata : DocumentNodeMetadata) :
    Option DocumentNode :=
  self.to_document_node (overrideInputs self.inputs input_override) metadata

/-! ## The static node catalog (`static_nodes` in `document_node_types.rs`)

The transcription covers the catalog as compiled with the default feature
set (entries guarded by `#[cfg(feature = "gpu")]` or
`#[cfg(feature = "quantization")]` are not part of the build and are
omitted). Entry order, names, categories, implementations, input slots and
output slots follow the source text. -/

/-- Inner network of the "Layer" entry. -/
def layerNetwork : NodeNetwork :=
  .mk [0, 0, 0, 0, 0, 0, 0, 0] [NodeOutput.new 1 0]
    [(0, .mk ""
        [ NodeInput.network (.concrete "graphene_core::vector::VectorData"),
          NodeInput.network (.concrete "String"),
          NodeInput.network (.concrete "BlendMode"),
          NodeInput.network (.concrete "f32"),
          NodeInput.network (.concrete "bool"),
          NodeInput.network (.concrete "bool"),
          NodeInput.network (.concrete "bool"),
          NodeInput.network (.concrete "graphene_core::GraphicGroup") ]
        (.unresolved "graphene_core::ConstructLayerNode<_, _, _, _, _, _, _>")
        DocumentNodeMetadata.default),
     (1, .mk ""
        [NodeInput.nodeRef 0 0]
        (.unresolved "graphene_core::memo::MonitorNode<_>")
        DocumentNodeMetadata.default)]

/-- Inner network of the "Downres" entry. -/
def downresNetwork : NodeNetwork :=
  .mk [0] [NodeOutput.new 1 0]
    [(0, .mk "Downres"
        [NodeInput.network (.concrete "ImageFrame<Color>")]
        (.unresolved "graphene_std::raster::DownresNode<_>")
        DocumentNodeMetadata.default),
     (1, .mk "Cache"
        [NodeInput.shortCircut (.concrete "()"), NodeInput.nodeRef 0 0]
        (.unresolved "graphene_core::memo::MemoNode<_, _>")
        DocumentNodeMetadata.default)]

/-- Inner network of the "Load Image" entry. -/
def loadImageNetwork : NodeNetwork :=
  .mk [0, 0] [NodeOutput.new 1 0]
    [(0, .mk "Load Resource"
        [NodeInput.network (.concrete "WasmEditorApi"), NodeInput.network (.concrete "String")]
        (.unresolved "graphene_std::wasm_application_io::LoadResourceNode<_>")
        DocumentNodeMetadata.default),
     (1, .mk "Decode Image"
        [NodeInput.nodeRef 0 0]
        (.unresolved "graphene_std::wasm_application_io::DecodeImageNode")
        DocumentNodeMetadata.default)]

/-- Inner network of the "Create Canvas" entry. -/
def createCanvasNetwork : NodeNetwork :=
  .mk [0] [NodeOutput.new 1 0]
    [(0, .mk "Create Canvas"
        [NodeInput.network (.concrete "WasmEditorApi")]
        (.unresolved "graphene_std::wasm_application_io::CreateSurfaceNode")
        DocumentNodeMetadata.default),
     (1, .mk "Cache"
        [NodeInput.shortCircut (.concrete "()"), NodeInput.nodeRef 0 0]
        (.unresolved "graphene_core::memo::MemoNode<_, _>")
        DocumentNodeMetadata.default)]

/-- Inner network of the "Draw Canvas" entry. -/
def drawCanvasNetwork : NodeNetwork :=
  .mk [0, 2] [NodeOutput.new 3 0]
    [(0, .mk "Convert Image Frame"
        [NodeInput.network (.concrete "ImageFrame<Color>")]
        (.unresolved "graphene_core::ops::IntoNode<_, ImageFrame<SRGBA8>>")
        DocumentNodeMetadata.default),
     (1, .mk "Create Canvas"
        [NodeInput.network (.concrete "WasmEditorApi")]
        (.unresolved "graphene_std::wasm_application_io::CreateSurfaceNode")
        DocumentNodeMetadata.default),
     (2, .mk "Cache"
        [NodeInput.shortCircut (.concrete "()"), NodeInput.nodeRef 1 0]
        (.unresolved "graphene_core::memo::MemoNode<_, _>")
        DocumentNodeMetadata.default),
     (3, .mk "Draw Canvas"
        [NodeInput.nodeRef 0 0, NodeInput.nodeRef 2 0]
        (.unresolved "graphene_std::wasm_application_io::DrawImageFrameNode<_>")
        DocumentNodeMetadata.default)]

/-- Inner network of the "Begin Scope" entry. -/
def beginScopeNetwork : NodeNetwork :=
  .mk [0] [NodeOutput.new 1 0, NodeOutput.new 2 0]
    [(0, .mk "SetNode"
        [NodeInput.shortCircut (.concrete "WasmEditorApi")]
        (.unresolved "graphene_core::ops::SomeNode")
        DocumentNodeMetadata.default),
     (1, .mk "LetNode"
        [NodeInput.nodeRef 0 0]
        (.unresolved "graphene_core::memo::LetNode<_>")
        DocumentNodeMetadata.default),
     (2, .mk "RefNode"
        [NodeInput.shortCircut (.concrete "()"), NodeInput.lambda 1 0]
        (.unresolved "graphene_core::memo::RefNode<_, _>")
        DocumentNodeMetadata.default)]

/-- Inner network of the "Split Channels" entry. -/
def splitChannelsNetwork : NodeNetwork :=
  .mk [0]
    [NodeOutput.new 4 0, NodeOutput.new 1 0, NodeOutput.new 2 0,
     NodeOutput.new 3 0, NodeOutput.new 4 0]
    [(0, .mk "Identity"
        [NodeInput.network (.concrete "ImageFrame<Color>")]
        (.unresolved "graphene_core::ops::IdNode")
        DocumentNodeMetadata.default),
     (1, .mk "RedNode"
        [NodeInput.nodeRef 0 0, NodeInput.value (.redGreenBlue .Red) false]
        (.unresolved "graphene_core::raster::ExtractChannelNode<_>")
        DocumentNodeMetadata.default),
     (2, .mk "GreenNode"
        [NodeInput.nodeRef 0 0, NodeInput.value (.redGreenBlue .Green) false]
        (.unresolved "graphene_core::raster::ExtractChannelNode<_>")
        DocumentNodeMetadata.default),
     (3, .mk "BlueNode"
        [NodeInput.nodeRef 0 0, NodeInput.value (.redGreenBlue .Blue) false]
        (.unresolved "graphene_core::raster::ExtractChannelNode<_>")
        DocumentNodeMetadata.default),
     (4, .mk "AlphaNode"
        [NodeInput.nodeRef 0 0]
        (.unresolved "graphene_core::raster::ExtractAlphaNode<>")
        DocumentNodeMetadata.default),
     (5, .mk "EmptyOutput"
        [NodeInput.value (.imageFrame ImageFrame.empty) false]
        (.unresolved "graphene_core::ops::IdNode")
        DocumentNodeMetadata.default)]

/-- Inner network of the "Imaginate" entry (`IMAGINATE_NODE`). -/
def imaginateNetwork : NodeNetwork :=
  .mk [0, 1, 1, 1, 1, 1, 1, 1, 1, 1, 1, 1, 1, 1, 1, 1, 1, 1] [NodeOutput.new 1 0]
    [(0, .mk "Frame Monitor"
        [NodeInput.network (.concrete "ImageFrame<Color>")]
        (.unresolved "graphene_core::memo::MonitorNode<_>")
        DocumentNodeMetadata.default),
     (1, .mk "Imaginate"
        [ NodeInput.nodeRef 0 0,
          NodeInput.network (.concrete "WasmEditorApi"),
          NodeInput.network (.concrete "ImaginateController"),
          NodeInput.network (.concrete "f64"),
          NodeInput.network (.concrete "Option<DVec2>"),
          NodeInput.network (.concrete "u32"),
          NodeInput.network (.concrete "ImaginateSamplingMethod"),
          NodeInput.network (.concrete "f32"),
          NodeInput.network (.concrete "String"),
          NodeInput.network (.concrete "String"),
          NodeInput.network (.concrete "bool"),
          NodeInput.network (.concrete "f32"),
          NodeInput.network (.concrete "Option<Vec<u64>>"),
          NodeInput.network (.concrete "bool"),
          NodeInput.network (.concrete "f32"),
          NodeInput.network (.concrete "ImaginateMaskStartingFill"),
          NodeInput.network (.concrete "bool"),
          NodeInput.network (.concrete "bool") ]
        (.unresolved "graphene_std::raster::ImaginateNode<_, _, _, _, _, _, _, _, _, _, _, _, _, _, _, _, _, _>")
        DocumentNodeMetadata.default)]

/-- The `IMAGINATE_NODE` static descriptor. -/
def IMAGINATE_NODE : DocumentNodeType :=
  { name := "Imaginate"
    category := "Image Synthesis"
    identifier := .documentNode imaginateNetwork
    inputs :=
      [ DocumentInputType.value "Input Image" (.imageFrame ImageFrame.empty) true,
        { name := "Editor Api", data_type := .General,
          default := NodeInput.network (.concrete "WasmEditorApi") },
        DocumentInputType.value "Controller" .imaginateController false,
        DocumentInputType.value "Seed" (.f64 0) false,
        DocumentInputType.value "Resolution" (.optionalDVec2 Option.none) false,
        DocumentInputType.value "Samples" (.u32 30) false,
        DocumentInputType.value "Sampling Method" (.imaginateSamplingMethod .EulerA) false,
        DocumentInputType.value "Prompt Guidance" (.f32 (15/2)) false,
        DocumentInputType.value "Prompt" (.string "") false,
        DocumentInputType.value "Negative Prompt" (.string "") false,
        DocumentInputType.value "Adapt Input Image" (.bool false) false,
        DocumentInputType.value "Image Creativity" (.f32 66) false,
        DocumentInputType.value "Masking Layer" (.layerPath Option.none) false,
        DocumentInputType.value "Inpaint" (.bool true) false,
        DocumentInputType.value "Mask Blur" (.f32 4) false,
        DocumentInputType.value "Mask Starting Fill" (.imaginateMaskStartingFill .Fill) false,
        DocumentInputType.value "Improve Faces" (.bool false) false,
        DocumentInputType.value "Tiling" (.bool false) false ]
    outputs := [DocumentOutputType.new "Image" .Raster] }

/-- The "Begin Scope" catalog entry. -/
def beginScopeType : DocumentNodeType :=
  { name := "Begin Scope", category := "Ignore",
    identifier := .documentNode beginScopeNetwork,
    inputs := [{ name := "In", data_type := .Raster,
                 default := NodeInput.network (.concrete "WasmEditorApi") }],
    outputs :=
      [ { name := "Scope", data_type := .General },
        { name := "Binding", data_type := .Raster } ] }

/-- The "End Scope" catalog entry. -/
def endScopeType : DocumentNodeType :=
  { name := "End Scope", category := "Ignore",
    identifier := .proto "graphene_core::memo::EndLetNode<_>",
    inputs :=
      [ { name := "Scope", data_type := .General,
          default := NodeInput.value .none true },
        { name := "Data", data_type := .Raster,
          default := NodeInput.value (.imageFrame ImageFrame.empty) true } ],
    outputs := [{ name := "Frame", data_type := .Raster }] }

/-- `static_nodes()`: the full built-in node type catalog, in source order
(default feature set). -/
def staticNodes : List DocumentNodeType :=
  [ { name := "Boolean", category := "Inputs",
      identifier := .proto "graphene_core::ops::IdNode",
      inputs := [DocumentInputType.value "Bool" (.bool true) false],
      outputs := [DocumentOutputType.new "Out" .Boolean] },
    { name := "Value", category := "Inputs",
      identifier := .proto "graphene_core::ops::IdNode",
      inputs := [DocumentInputType.value "Value" (.f32 0) false],
      outputs := [DocumentOutputType.new "Out" .Number] },
    { name := "Color", category := "Inputs",
      identifier := .proto "graphene_core::ops::IdNode",
      inputs := [DocumentInputType.value "Value" (.optionalColor Option.none) false],
      outputs := [DocumentOutputType.new "Out" .Color] },
    { name := "Identity", category := "Structural",
      identifier := .proto "graphene_core::ops::IdNode",
      inputs := [{ name := "In", data_type := .General,
                   default := NodeInput.value .none true }],
      outputs := [DocumentOutputType.new "Out" .General] },
    { name := "Monitor", category := "Structural",
      identifier := .proto "graphene_core::ops::IdNode",
      inputs := [{ name := "In", data_type := .General,
                   default := NodeInput.value .none true }],
      outputs := [DocumentOutputType.new "Out" .General] },
    { name := "Layer", category := "General",
      identifier := .documentNode layerNetwork,
      inputs :=
        [ DocumentInputType.value "Vector Data" (.vectorData VectorData.empty) true,
          DocumentInputType.value "Name" (.string "") false,
          DocumentInputType.value "Blend Mode" (.blendMode .Normal) false,
          DocumentInputType.value "Opacity" (.f32 100) false,
          DocumentInputType.value "Visible" (.bool true) false,
          DocumentInputType.value "Locked" (.bool false) false,
          DocumentInputType.value "Collapsed" (.bool false) false,
          DocumentInputType.value "Stack" .graphicGroup true ],
      outputs := [DocumentOutputType.new "Out" .GraphicGroup] },
    { name := "Artboard", category := "General",
      identifier := .proto "graphene_core::ConstructArtboardNode<_, _, _, _>",
      inputs :=
        [ DocumentInputType.value "Graphic Group" .graphicGroup true,
          DocumentInputType.value "Location" (.ivec2 IVec2.ZERO) false,
          DocumentInputType.value "Dimensions" (.ivec2 ⟨1920, 1080⟩) false,
          DocumentInputType.value "Background" (.color Color.WHITE) false,
          DocumentInputType.value "Clip" (.bool false) false ],
      outputs := [DocumentOutputType.new "Out" .Artboard] },
    { name := "Downres", category := "Raster",
      identifier := .documentNode downresNetwork,
      inputs := [DocumentInputType.value "Image" (.imageFrame ImageFrame.empty) false],
      outputs := [DocumentOutputType.new "Image" .Raster] },
    { name := "Input Frame", category := "Ignore",
      identifier := .proto "graphene_core::ExtractImageFrame",
      inputs := [{ name := "In", data_type := .General,
                   default := NodeInput.network (.concrete "WasmEditorApi") }],
      outputs := [{ name := "Image Frame", data_type := .Raster }] },
    { name := "Load Image", category := "Structural",
      identifier := .documentNode loadImageNetwork,
      inputs :=
        [ { name := "api", data_type := .General,
            default := NodeInput.network (.concrete "WasmEditorApi") },
          { name := "path", data_type := .General,
            default := NodeInput.value (.string "graphite:null") false } ],
      outputs := [{ name := "Image Frame", data_type := .Raster }] },
    { name := "Create Canvas", category := "Structural",
      identifier := .documentNode createCanvasNetwork,
      inputs := [{ name := "In", data_type := .General,
                   default := NodeInput.network (.concrete "WasmEditorApi") }],
      outputs := [{ name := "Canvas", data_type := .General }] },
    { name := "Draw Canvas", category := "Structural",
      identifier := .documentNode drawCanvasNetwork,
      inputs :=
        [ { name := "In", data_type := .Raster,
            default := NodeInput.value (.imageFrame ImageFrame.empty) true },
          { name := "In", data_type := .General,
            default := NodeInput.network (.concrete "WasmEditorApi") } ],
      outputs := [{ name := "Canvas", data_type := .General }] },
    beginScopeType,
    endScopeType,
    { name := "Output", category := "Ignore",
      identifier := .proto "graphene_core::ops::IdNode",
      inputs := [{ name := "Output", data_type := .Raster,
                   default := NodeInput.value (.imageFrame ImageFrame.empty) true }],
      outputs := [] },
    { name := "Image Frame", category := "General",
      identifier := .proto "graphene_std::raster::ImageFrameNode<_, _>",
      inputs :=
        [ DocumentInputType.value "Image" (.image Image.empty) true,
          DocumentInputType.value "Transform" (.daffine2 DAffine2.IDENTITY) true ],
      outputs := [DocumentOutputType.new "Image" .Raster] },
    { name := "Mask", category := "Image Adjustments",
      identifier := .proto "graphene_std::raster::MaskImageNode<_, _, _>",
      inputs :=
        [ DocumentInputType.value "Image" (.imageFrame ImageFrame.empty) true,
          DocumentInputType.value "Stencil" (.imageFrame ImageFrame.empty) true ],
      outputs := [DocumentOutputType.new "Image" .Raster] },
    { name := "Insert Channel", category := "Image Adjustments",
      identifier := .proto "graphene_std::raster::InsertChannelNode<_, _, _, _>",
      inputs :=
        [ DocumentInputType.value "Image" (.imageFrame ImageFrame.empty) true,
          DocumentInputType.value "Insertion" (.imageFrame ImageFrame.empty) true,
          DocumentInputType.value "Replace" (.redGreenBlue .Red) false ],
      outputs := [DocumentOutputType.new "Image" .Raster] },
    { name := "Combine Channels", category := "Image Adjustments",
      identifier := .proto "graphene_std::raster::CombineChannelsNode",
      inputs :=
        [ DocumentInputType.value "None" .none false,
          DocumentInputType.value "Red" (.imageFrame ImageFrame.empty) true,
          DocumentInputType.value "Green" (.imageFrame ImageFrame.empty) true,
          DocumentInputType.value "Blue" (.imageFrame ImageFrame.empty) true,
          DocumentInputType.value "Alpha" (.imageFrame ImageFrame.empty) true ],
      outputs := [{ name := "Image", data_type := .Raster }] },
    { name := "Blend", category := "Image Adjustments",
      identifier := .proto "graphene_core::raster::BlendNode<_, _, _, _>",
      inputs :=
        [ DocumentInputType.value "Image" (.imageFrame ImageFrame.empty) true,
          DocumentInputType.value "Second" (.imageFrame ImageFrame.empty) true,
          DocumentInputType.value "BlendMode" (.blendMode .Normal) false,
          DocumentInputType.value "Opacity" (.f32 100) false ],
      outputs := [DocumentOutputType.new "Image" .Raster] },
    { name := "Levels", category := "Image Adjustments",
      identifier := .proto "graphene_core::raster::LevelsNode<_, _, _, _, _>",
      inputs :=
        [ { name := "Image", data_type := .Raster,
            default := NodeInput.value (.imageFrame ImageFrame.empty) true },
          { name := "Shadows", data_type := .Number,
            default := NodeInput.value (.f32 0) false },
          { name := "Midtones", data_type := .Number,
            default := NodeInput.value (.f32 50) false },
          { name := "Highlights", data_type := .Number,
            default := NodeInput.value (.f32 100) false },
          { name := "Output Minimums", data_type := .Number,
            default := NodeInput.value (.f32 0) false },
          { name := "Output Maximums", data_type := .Number,
            default := NodeInput.value (.f32 100) false } ],
      outputs := [DocumentOutputType.new "Image" .Raster] },
    { name := "Grayscale", category := "Image Adjustments",
      identifier := .proto "graphene_core::raster::GrayscaleNode<_, _, _, _, _, _, _>",
      inputs :=
        [ { name := "Image", data_type := .Raster,
            default := NodeInput.value (.imageFrame ImageFrame.empty) true },
          { name := "Tint", data_type := .Number,
            default := NodeInput.value (.color Color.BLACK) false },
          { name := "Reds", data_type := .Number,
            default := NodeInput.value (.f32 40) false },
          { name := "Yellows", data_type := .Number,
            default := NodeInput.value (.f32 60) false },
          { name := "Greens", data_type := .Number,
            default := NodeInput.value (.f32 40) false },
          { name := "Cyans", data_type := .Number,
            default := NodeInput.value (.f32 60) false },
          { name := "Blues", data_type := .Number,
            default := NodeInput.value (.f32 20) false },
          { name := "Magentas", data_type := .Number,
            default := NodeInput.value (.f32 80) false } ],
      outputs := [DocumentOutputType.new "Image" .Raster] },
    { name := "Color Channel", category := "Image Adjustments",
      identifier := .proto "graphene_core::ops::IdNode",
      inputs := [DocumentInputType.value "Channel" (.redGreenBlue .Red) false],
      outputs := [DocumentOutputType.new "Out" .General] },
    { name := "Blend Mode", category := "Image Adjustments",
      identifier := .proto "graphene_core::ops::IdNode",
      inputs := [DocumentInputType.value "Mode" (.blendMode .Normal) false],
      outputs := [DocumentOutputType.new "Out" .General] },
    { name := "Luminance", category := "Image Adjustments",
      identifier := .proto "graphene_core::raster::LuminanceNode<_>",
      inputs :=
        [ DocumentInputType.value "Image" (.imageFrame ImageFrame.empty) true,
          DocumentInputType.value "Luminance Calc" (.luminanceCalculation .SRGB) false ],
      outputs := [DocumentOutputType.new "Image" .Raster] },
    { name := "Extract Channel", category := "Image Adjustments",
      identifier := .proto "graphene_core::raster::ExtractChannelNode<_>",
      inputs :=
        [ DocumentInputType.value "Image" (.imageFrame ImageFrame.empty) true,
          DocumentInputType.value "From" (.redGreenBlue .Red) false ],
      outputs := [DocumentOutputType.new "Image" .Raster] },
    { name := "Extract Alpha", category := "Image Adjustments",
      identifier := .proto "graphene_core::raster::ExtractAlphaNode<>",
      inputs := [DocumentInputType.value "Image" (.imageFrame ImageFrame.empty) true],
      outputs := [DocumentOutputType.new "Image" .Raster] },
    { name := "Extract Opaque", category := "Image Adjustments",
      identifier := .proto "graphene_core::raster::ExtractOpaqueNode<>",
      inputs := [DocumentInputType.value "Image" (.imageFrame ImageFrame.empty) true],
      outputs := [DocumentOutputType.new "Image" .Raster] },
    { name := "Split Channels", category := "Image Adjustments",
      identifier := .documentNode splitChannelsNetwork,
      inputs := [DocumentInputType.value "Image" (.imageFrame ImageFrame.empty) true],
      outputs :=
        [ DocumentOutputType.new "Empty" .Raster,
          DocumentOutputType.new "Red" .Raster,
          DocumentOutputType.new "Green" .Raster,
          DocumentOutputType.new "Blue" .Raster,
          DocumentOutputType.new "Alpha" .Raster ],
      primary_output := false },
    { name := "Brush", category := "Brush",
      identifier := .proto "graphene_std::brush::BrushNode<_, _, _>",
      inputs :=
        [ DocumentInputType.value "Background" (.imageFrame ImageFrame.empty) true,
          DocumentInputType.value "Bounds" (.imageFrame ImageFrame.empty) true,
          DocumentInputType.value "Trace" .brushStrokes false,
          DocumentInputType.value "Cache" .brushCache false ],
      outputs := [{ name := "Image", data_type := .Raster }] },
    { name := "Extract Vector Points", category := "Brush",
      identifier := .proto "graphene_std::brush::VectorPointsNode",
      inputs := [DocumentInputType.value "VectorData" (.vectorData VectorData.empty) true],
      outputs := [{ name := "Vector Points", data_type := .General }] },
    { name := "Memoize", category := "Structural",
      identifier := .proto "graphene_core::memo::MemoNode<_, _>",
      inputs :=
        [ DocumentInputType.value "ShortCircut" .none false,
          DocumentInputType.value "Image" (.imageFrame ImageFrame.empty) true ],
      outputs := [DocumentOutputType.new "Image" .Raster] },
    { name := "Image", category := "Ignore",
      identifier := .proto "graphene_core::ops::IdNode",
      inputs := [DocumentInputType.value "Image" (.imageFrame ImageFrame.empty) false],
      outputs := [DocumentOutputType.new "Image" .Raster] },
    { name := "Ref", category := "Structural",
      identifier := .proto "graphene_core::memo::MemoNode<_, _>",
      inputs := [DocumentInputType.value "Image" (.imageFrame ImageFrame.empty) true],
      outputs := [DocumentOutputType.new "Image" .Raster] },
    { name := "Extract", category := "Macros",
      identifier := .extract,
      inputs := [{ name := "Node", data_type := .General,
                   default := NodeInput.value .documentNode true }],
      outputs := [DocumentOutputType.new "DocumentNode" .General] },
    { name := "Invert RGB", category := "Image Adjustments",
      identifier := .proto "graphene_core::raster::InvertRGBNode",
      inputs := [DocumentInputType.value "Image" (.imageFrame ImageFrame.empty) true],
      outputs := [DocumentOutputType.new "Image" .Raster] },
    { name := "Hue/Saturation", category := "Image Adjustments",
      identifier := .proto "graphene_core::raster::HueSaturationNode<_, _, _>",
      inputs :=
        [ DocumentInputType.value "Image" (.imageFrame ImageFrame.empty) true,
          DocumentInputType.value "Hue Shift" (.f32 0) false,
          DocumentInputType.value "Saturation Shift" (.f32 0) false,
          DocumentInputType.value "Lightness Shift" (.f32 0) false ],
      outputs := [DocumentOutputType.new "Image" .Raster] },
    { name := "Brightness/Contrast", category := "Image Adjustments",
      identifier := .proto "graphene_core::raster::BrightnessContrastNode<_, _, _>",
      inputs :=
        [ DocumentInputType.value "Image" (.imageFrame ImageFrame.empty) true,
          DocumentInputType.value "Brightness" (.f32 0) false,
          DocumentInputType.value "Contrast" (.f32 0) false,
          DocumentInputType.value "Use Legacy" (.bool false) false ],
      outputs := [DocumentOutputType.new "Image" .Raster] },
    { name := "Threshold", category := "Image Adjustments",
      identifier := .proto "graphene_core::raster::ThresholdNode<_, _, _>",
      inputs :=
        [ DocumentInputType.value "Image" (.imageFrame ImageFrame.empty) true,
          DocumentInputType.value "Min Luminance" (.f32 50) false,
          DocumentInputType.value "Max Luminance" (.f32 100) false,
          DocumentInputType.value "Luminance Calc" (.luminanceCalculation .SRGB) false ],
      outputs := [DocumentOutputType.new "Image" .Raster] },
    { name := "Vibrance", category := "Image Adjustments",
      identifier := .proto "graphene_core::raster::VibranceNode<_>",
      inputs :=
        [ DocumentInputType.value "Image" (.imageFrame ImageFrame.empty) true,
          DocumentInputType.value "Vibrance" (.f32 0) false ],
      outputs := [DocumentOutputType.new "Image" .Raster] } ]
  ++
  [ { name := "Channel Mixer", category := "Image Adjustments",
      identifier := .proto "graphene_core::raster::ChannelMixerNode<_, _, _, _, _, _, _, _, _, _, _, _, _, _, _, _, _>",
      inputs :=
        [ DocumentInputType.value "Image" (.imageFrame ImageFrame.empty) true,
          DocumentInputType.value "Monochrome" (.bool false) false,
          DocumentInputType.value "Red" (.f32 40) false,
          DocumentInputType.value "Green" (.f32 40) false,
          DocumentInputType.value "Blue" (.f32 20) false,
          DocumentInputType.value "Constant" (.f32 0) false,
          DocumentInputType.value "(Red) Red" (.f32 100) false,
          DocumentInputType.value "(Red) Green" (.f32 0) false,
          DocumentInputType.value "(Red) Blue" (.f32 0) false,
          DocumentInputType.value "(Red) Constant" (.f32 0) false,
          DocumentInputType.value "(Green) Red" (.f32 0) false,
          DocumentInputType.value "(Green) Green" (.f32 100) false,
          DocumentInputType.value "(Green) Blue" (.f32 0) false,
          DocumentInputType.value "(Green) Constant" (.f32 0) false,
          DocumentInputType.value "(Blue) Red" (.f32 0) false,
          DocumentInputType.value "(Blue) Green" (.f32 0) false,
          DocumentInputType.value "(Blue) Blue" (.f32 100) false,
          DocumentInputType.value "(Blue) Constant" (.f32 0) false,
          DocumentInputType.value "Output Channel" (.redGreenBlue .Red) false ],
      outputs := [DocumentOutputType.new "Image" .Raster] },
    { name := "Selective Color", category := "Image Adjustments",
      identifier := .proto "graphene_core::raster::SelectiveColorNode<_, _, _, _, _, _, _, _, _, _, _, _, _, _, _, _, _, _, _, _, _, _, _, _, _, _, _, _, _, _, _, _, _, _, _, _, _>",
      inputs :=
        [ DocumentInputType.value "Image" (.imageFrame ImageFrame.empty) true,
          DocumentInputType.value "Mode" (.relativeAbsolute .Relative) false,
          DocumentInputType.value "(Reds) Cyan" (.f32 0) false,
          DocumentInputType.value "(Reds) Magenta" (.f32 0) false,
          DocumentInputType.value "(Reds) Yellow" (.f32 0) false,
          DocumentInputType.value "(Reds) Black" (.f32 0) false,
          DocumentInputType.value "(Yellows) Cyan" (.f32 0) false,
          DocumentInputType.value "(Yellows) Magenta" (.f32 0) false,
          DocumentInputType.value "(Yellows) Yellow" (.f32 0) false,
          DocumentInputType.value "(Yellows) Black" (.f32 0) false,
          DocumentInputType.value "(Greens) Cyan" (.f32 0) false,
          DocumentInputType.value "(Greens) Magenta" (.f32 0) false,
          DocumentInputType.value "(Greens) Yellow" (.f32 0) false,
          DocumentInputType.value "(Greens) Black" (.f32 0) false,
          DocumentInputType.value "(Cyans) Cyan" (.f32 0) false,
          DocumentInputType.value "(Cyans) Magenta" (.f32 0) false,
          DocumentInputType.value "(Cyans) Yellow" (.f32 0) false,
          DocumentInputType.value "(Cyans) Black" (.f32 0) false,
          DocumentInputType.value "(Blues) Cyan" (.f32 0) false,
          DocumentInputType.value "(Blues) Magenta" (.f32 0) false,
          DocumentInputType.value "(Blues) Yellow" (.f32 0) false,
          DocumentInputType.value "(Blues) Black" (.f32 0) false,
          DocumentInputType.value "(Magentas) Cyan" (.f32 0) false,
          DocumentInputType.value "(Magentas) Magenta" (.f32 0) false,
          DocumentInputType.value "(Magentas) Yellow" (.f32 0) false,
          DocumentInputType.value "(Magentas) Black" (.f32 0) false,
          DocumentInputType.value "(Whites) Cyan" (.f32 0) false,
          DocumentInputType.value "(Whites) Magenta" (.f32 0) false,
          DocumentInputType.value "(Whites) Yellow" (.f32 0) false,
          DocumentInputType.value "(Whites) Black" (.f32 0) false,
          DocumentInputType.value "(Neutrals) Cyan" (.f32 0) false,
          DocumentInputType.value "(Neutrals) Magenta" (.f32 0) false,
          DocumentInputType.value "(Neutrals) Yellow" (.f32 0) false,
          DocumentInputType.value "(Neutrals) Black" (.f32 0) false,
          DocumentInputType.value "(Blacks) Cyan" (.f32 0) false,
          DocumentInputType.value "(Blacks) Magenta" (.f32 0) false,
          DocumentInputType.value "(Blacks) Yellow" (.f32 0) false,
          DocumentInputType.value "(Blacks) Black" (.f32 0) false,
          DocumentInputType.value "Colors" (.selectiveColorChoice .Reds) false ],
      outputs := [DocumentOutputType.new "Image" .Raster] },
    { name := "Opacity", category := "Image Adjustments",
      identifier := .proto "graphene_core::raster::OpacityNode<_>",
      inputs :=
        [ DocumentInputType.value "Image" (.imageFrame ImageFrame.empty) true,
          DocumentInputType.value "Factor" (.f32 100) false ],
      outputs := [DocumentOutputType.new "Image" .Raster] },
    { name := "Posterize", category := "Image Adjustments",
      identifier := .proto "graphene_core::raster::PosterizeNode<_>",
      inputs :=
        [ DocumentInputType.value "Image" (.imageFrame ImageFrame.empty) true,
          DocumentInputType.value "Value" (.f32 4) false ],
      outputs := [DocumentOutputType.new "Image" .Raster] },
    { name := "Exposure", category := "Image Adjustments",
      identifier := .proto "graphene_core::raster::ExposureNode<_, _, _>",
      inputs :=
        [ DocumentInputType.value "Image" (.imageFrame ImageFrame.empty) true,
          DocumentInputType.value "Exposure" (.f32 0) false,
          DocumentInputType.value "Offset" (.f32 0) false,
          DocumentInputType.value "Gamma Correction" (.f32 1) false ],
      outputs := [DocumentOutputType.new "Image" .Raster] },
    { name := "Add", category := "Math",
      identifier := .proto "graphene_core::ops::AddParameterNode<_>",
      inputs :=
        [ DocumentInputType.value "Primary" (.f32 0) true,
          DocumentInputType.value "Addend" (.f32 0) false ],
      outputs := [DocumentOutputType.new "Output" .Number] },
    { name := "Subtract", category := "Math",
      identifier := .proto "graphene_core::ops::AddParameterNode<_>",
      inputs :=
        [ DocumentInputType.value "Primary" (.f32 0) true,
          DocumentInputType.value "Subtrahend" (.f32 0) false ],
      outputs := [DocumentOutputType.new "Output" .Number] },
    { name := "Divide", category := "Math",
      identifier := .proto "graphene_core::ops::DivideParameterNode<_>",
      inputs :=
        [ DocumentInputType.value "Primary" (.f32 0) true,
          DocumentInputType.value "Divisor" (.f32 0) false ],
      outputs := [DocumentOutputType.new "Output" .Number] },
    { name := "Multiply", category := "Math",
      identifier := .proto "graphene_core::ops::MultiplyParameterNode<_>",
      inputs :=
        [ DocumentInputType.value "Primary" (.f32 0) true,
          DocumentInputType.value "Multiplicand" (.f32 0) false ],
      outputs := [DocumentOutputType.new "Output" .Number] },
    { name := "Exponent", category := "Math",
      identifier := .proto "graphene_core::ops::ExponentParameterNode<_>",
      inputs :=
        [ DocumentInputType.value "Primary" (.f32 0) true,
          DocumentInputType.value "Power" (.f32 0) false ],
      outputs := [DocumentOutputType.new "Output" .Number] },
    { name := "Max", category := "Math",
      identifier := .proto "graphene_core::ops::MaxParameterNode<_>",
      inputs :=
        [ DocumentInputType.value "First" (.f32 0) true,
          DocumentInputType.value "Second" (.f32 0) true ],
      outputs := [DocumentOutputType.new "Output" .Number] },
    { name := "Min", category := "Math",
      identifier := .proto "graphene_core::ops::MinParameterNode<_>",
      inputs :=
        [ DocumentInputType.value "First" (.f32 0) true,
          DocumentInputType.value "Second" (.f32 0) true ],
      outputs := [DocumentOutputType.new "Output" .Number] },
    { name := "Equality", category := "Math",
      identifier := .proto "graphene_core::ops::EqParameterNode<_>",
      inputs :=
        [ DocumentInputType.value "First" (.f32 0) true,
          DocumentInputType.value "Second" (.f32 0) true ],
      outputs := [DocumentOutputType.new "Output" .Number] },
    { name := "Modulo", category := "Math",
      identifier := .proto "graphene_core::ops::ModuloParameterNode<_>",
      inputs :=
        [ DocumentInputType.value "Primary" (.f32 0) true,
          DocumentInputType.value "Modulus" (.f32 0) false ],
      outputs := [DocumentOutputType.new "Output" .Number] },
    { name := "Log to Console", category := "Logic",
      identifier := .proto "graphene_core::logic::LogToConsoleNode",
      inputs := [DocumentInputType.value "First" (.string "Not Connected to a value yet") true],
      outputs := [DocumentOutputType.new "Output" .General] },
    IMAGINATE_NODE,
    { name := "Unit Circle Generator", category := "Vector",
      identifier := .proto "graphene_core::vector::generator_nodes::UnitCircleGenerator",
      inputs := [DocumentInputType.noneSlot],
      outputs := [DocumentOutputType.new "Vector" .Subpath] },
    { name := "Shape", category := "Vector",
      identifier := .proto "graphene_core::vector::generator_nodes::PathGenerator<_>",
      inputs :=
        [ DocumentInputType.value "Path Data" (.subpaths []) false,
          DocumentInputType.value "Mirror" (.manipulatorGroupIds []) false ],
      outputs := [DocumentOutputType.new "Vector" .Subpath] },
    { name := "Text", category := "Vector",
      identifier := .proto "graphene_core::text::TextGenerator<_, _, _>",
      inputs :=
        [ DocumentInputType.noneSlot,
          DocumentInputType.value "Text" (.string "hello world") false,
          DocumentInputType.value "Font" (.font ⟨"Merriweather", "Normal (400)"⟩) false,
          DocumentInputType.value "Size" (.f64 24) false ],
      outputs := [DocumentOutputType.new "Vector" .Subpath] },
    { name := "Transform", category := "Transform",
      identifier := .proto "graphene_core::transform::TransformNode<_, _, _, _, _>",
      inputs :=
        [ DocumentInputType.value "Data" (.vectorData VectorData.empty) true,
          DocumentInputType.value "Translation" (.dvec2 DVec2.ZERO) false,
          DocumentInputType.value "Rotation" (.f32 0) false,
          DocumentInputType.value "Scale" (.dvec2 DVec2.ONE) false,
          DocumentInputType.value "Skew" (.dvec2 DVec2.ZERO) false,
          DocumentInputType.value "Pivot" (.dvec2 (DVec2.splat (1/2))) false ],
      outputs := [DocumentOutputType.new "Data" .Subpath] },
    { name := "SetTransform", category := "Transform",
      identifier := .proto "graphene_core::transform::SetTransformNode<_>",
      inputs :=
        [ DocumentInputType.value "Data" (.vectorData VectorData.empty) true,
          DocumentInputType.value "Transform" (.daffine2 DAffine2.IDENTITY) true ],
      outputs := [DocumentOutputType.new "Data" .Subpath] },
    { name := "Fill", category := "Vector",
      identifier := .proto "graphene_core::vector::SetFillNode<_, _, _, _, _, _, _>",
      inputs :=
        [ DocumentInputType.value "Vector Data" (.vectorData VectorData.empty) true,
          DocumentInputType.value "Fill Type" (.fillType .None) false,
          DocumentInputType.value "Solid Color" (.optionalColor Option.none) false,
          DocumentInputType.value "Gradient Type" (.gradientType .Linear) false,
          DocumentInputType.value "Start" (.dvec2 ⟨0, 1/2⟩) false,
          DocumentInputType.value "End" (.dvec2 ⟨1, 1/2⟩) false,
          DocumentInputType.value "Transform" (.daffine2 DAffine2.IDENTITY) false,
          DocumentInputType.value "Positions"
            (.gradientPositions [(0, some Color.BLACK), (1, some Color.WHITE)]) false ],
      outputs := [DocumentOutputType.new "Vector" .Subpath] },
    { name := "Stroke", category := "Vector",
      identifier := .proto "graphene_core::vector::SetStrokeNode<_, _, _, _, _, _, _>",
      inputs :=
        [ DocumentInputType.value "Vector Data" (.vectorData VectorData.empty) true,
          DocumentInputType.value "Color" (.optionalColor (some Color.BLACK)) false,
          DocumentInputType.value "Weight" (.f32 0) false,
          DocumentInputType.value "Dash Lengths" (.vecF32 []) false,
          DocumentInputType.value "Dash Offset" (.f32 0) false,
          DocumentInputType.value "Line Cap" (.lineCap .Butt) false,
          DocumentInputType.value "Line Join" (.lineJoin .Miter) false,
          DocumentInputType.value "Miter Limit" (.f32 4) false ],
      outputs := [DocumentOutputType.new "Vector" .Subpath] },
    { name := "Repeat", category := "Vector",
      identifier := .proto "graphene_core::vector::RepeatNode<_, _>",
      inputs :=
        [ DocumentInputType.value "Vector Data" (.vectorData VectorData.empty) true,
          DocumentInputType.value "Direction" (.dvec2 ⟨100, 0⟩) false,
          DocumentInputType.value "Count" (.u32 10) false ],
      outputs := [DocumentOutputType.new "Vector" .Subpath] },
    { name := "Bounding Box", category := "Vector",
      identifier := .proto "graphene_core::vector::BoundingBoxNode",
      inputs := [DocumentInputType.value "Vector Data" (.vectorData VectorData.empty) true],
      outputs := [DocumentOutputType.new "Vector" .Subpath] },
    { name := "Circular Repeat", category := "Vector",
      identifier := .proto "graphene_core::vector::CircularRepeatNode<_, _, _>",
      inputs :=
        [ DocumentInputType.value "Vector Data" (.vectorData VectorData.empty) true,
          DocumentInputType.value "Rotation Offset" (.f32 0) false,
          DocumentInputType.value "Radius" (.f32 5) false,
          DocumentInputType.value "Count" (.u32 10) false ],
      outputs := [DocumentOutputType.new "Vector" .Subpath] },
    { name := "Image Segmentation", category := "Image Adjustments",
      identifier := .proto "graphene_std::image_segmentation::ImageSegmentationNode<_>",
      inputs :=
        [ DocumentInputType.value "Image" (.imageFrame ImageFrame.empty) true,
          DocumentInputType.value "Mask" (.imageFrame ImageFrame.empty) true ],
      outputs := [DocumentOutputType.new "Segments" .Raster] },
    { name := "Index", category := "Image Adjustments",
      identifier := .proto "graphene_core::raster::IndexNode<_>",
      inputs :=
        [ DocumentInputType.value "Segmentation" (.segments [ImageFrame.empty]) true,
          DocumentInputType.value "Index" (.u32 0) false ],
      outputs := [DocumentOutputType.new "Image" .Raster] } ]

/-- `resolve_document_node_type`: exact, case-sensitive name lookup in the
static catalog. -/
def resolve_document_node_type (name : String) : Option DocumentNodeType :=
  staticNodes.find? fun node => node.name == name

/-! ## Network flattening and scope wrapping

`wrap_network_in_scope` lives in `document_node_types.rs`; the two
`NodeNetwork` methods it calls, `generate_node_paths` and `flatten`, live in
the `graph_craft` crate, which is not among the sources, so they are
modelled from the spec:

- `generate_node_paths` attaches editor-only node-path metadata; the spec
  (§3 "Node Instance") declares such metadata computationally meaningless
  and freely discardable, and the model does not carry node paths at all,
  so the call is the identity and is not represented;
- `flatten` is the recursive inliner of spec §4.2, step 1: a node whose
  implementation is a nested network is replaced by that network's own
  nodes, the outer node's input bindings substitute for the inner network's
  free inputs, and references to the replaced node's outputs are rewired to
  the corresponding inner output node; inlined nodes are flattened in turn
  until only primitive implementations remain. Fresh ids for the inlined
  nodes are obtained by offsetting past the largest id in the outer network
  (the concrete id-renaming scheme is unspecified by the spec; no claim
  depends on the choice). -/

/-- Largest node id occurring as a key in the network (`0` if empty). -/
def maxNodeId (net : NodeNetwork) : NodeId :=
  net.nodes.foldl (fun m p => max m p.1) 0

/-- Rename the node-output references of one node's inputs. -/
def DocumentNode.renameRefs (f : NodeId → NodeId) (n : DocumentNode) : DocumentNode :=
  n.withInputs (n.inputs.map fun i =>
    match i with
    | .node id idx lazy => .node (f id) idx lazy
    | other => other)

/-- Rename all top-level node ids of a network (`NodeNetwork::map_ids`);
ids inside deeper nested networks are local to those networks and are left
untouched. -/
def renameNetwork (f : NodeId → NodeId) (net : NodeNetwork) : NodeNetwork :=
  .mk (net.inputs.map f)
      (net.outputs.map fun o => ⟨f o.node_id, o.node_output_index⟩)
      (net.nodes.map fun p => (f p.1, p.2.renameRefs f))

/-- Replace the `k`-th (0-based) `network` binding of an input list by a
concrete binding, leaving everything else untouched. -/
def replaceNthNetworkInput : List NodeInput → Nat → NodeInput → List NodeInput
  | [], _, _ => []
  | .network _ :: rest, 0, b => b :: rest
  | .network ty :: rest, k + 1, b => .network ty :: replaceNthNetworkInput rest k b
  | other :: rest, k, b => other :: replaceNthNetworkInput rest k b

/-- Apply a function to the node with the given id in an association list. -/
def updateNode (nodes : List (NodeId × DocumentNode)) (id : NodeId)
    (f : DocumentNode → DocumentNode) : List (NodeId × DocumentNode) :=
  nodes.map fun p => if p.1 = id then (p.1, f p.2) else p

/-- Substitute the outer node's input bindings for the inner network's free
inputs: each `(binding, target)` pair replaces the next not-yet-substituted
`network` input slot of the target node (per-target offsets mirror the
source's offset bookkeeping). -/
def substituteFreeInputs :
    List (NodeInput × NodeId) → List (NodeId × DocumentNode) → List (NodeId × Nat) →
    List (NodeId × DocumentNode)
  | [], nodes, _ => nodes
  | (binding, target) :: rest, nodes, offsets =>
    let o := (offsets.lookup target).getD 0
    let nodes' := updateNode nodes target fun n =>
      n.withInputs (replaceNthNetworkInput n.inputs o binding)
    substituteFreeInputs rest nodes' ((target, o + 1) :: offsets)

/-- The node that the outer network's own free-input entry is rewired to
when the wrapped node is inlined: the target of the first free-input pair
whose binding is itself a `network` binding. -/
def freeRewireTarget (pairs : List (NodeInput × NodeId)) : Option NodeId :=
  (pairs.find? fun p => match p.1 with | .network _ => true | _ => false).map (·.2)

/-- Rewire one node-output reference `(id, idx)`: if it points at the
replaced node, redirect it to that network's `idx`-th output. -/
def redirectRef (id : NodeId) (outs : List NodeOutput) (nid : NodeId) (idx : Nat)
    (lazy : Bool) : NodeInput :=
  if nid = id then
    match outs.get? idx with
    | some o => .node o.node_id o.node_output_index lazy
    | Option.none => .node nid idx lazy
  else
    .node nid idx lazy

/-- Modelled from the spec: `NodeNetwork::flatten(id)` (spec §4.2 step 1 and
the edge-case policy of §4.2). Structured as a fuel-indexed recursion; the
fuel passed by `wrap_network_in_scope` (the term size of the network) always
suffices, and a node whose implementation is already primitive is returned
unchanged for every fuel. -/
def flattenNode : Nat → NodeNetwork → NodeId → NodeNetwork
  | 0, net, _ => net
  | fuel + 1, net, id =>
    match net.nodes.lookup id with
    | Option.none => net
    | some node =>
      match node.implementation with
      | .network inner =>
        let base := maxNodeId net + 1
        let inner' := renameNetwork (fun i => base + i) inner
        let pairs := node.inputs.zip inner'.inputs
        let kept := net.nodes.filter fun p => p.1 ≠ id
        let nodes1 := substituteFreeInputs pairs (kept ++ inner'.nodes) []
        let nodes2 := nodes1.map fun p =>
          (p.1, p.2.withInputs (p.2.inputs.map fun i =>
            match i with
            | .node nid idx lazy => redirectRef id inner'.outputs nid idx lazy
            | other => other))
        let outs := net.outputs.map fun o =>
          if o.node_id = id then (inner'.outputs.get? o.node_output_index).getD o else o
        let ins := net.inputs.map fun i =>
          if i = id then (freeRewireTarget pairs).getD i else i
        (inner'.nodes.map (·.1)).foldl (fun acc nid => flattenNode fuel acc nid)
          (NodeNetwork.mk ins outs nodes2)
      | _ => net

mutual
/-- Term size of an implementation (flattening-fuel measure). -/
def implSize : DocumentNodeImplementation → Nat
  | .network n => netSize n + 1
  | .unresolved _ => 1
  | .extract => 1

/-- Term size of a node (flattening-fuel measure). -/
def nodeSize : DocumentNode → Nat
  | .mk _ _ impl _ => implSize impl + 1

/-- Term size of a node list (flattening-fuel measure). -/
def nodesSize : List (NodeId × DocumentNode) → Nat
  | [] => 0
  | (_, n) :: rest => nodeSize n + nodesSize rest + 1

/-- Term size of a network (flattening-fuel measure). -/
def netSize : NodeNetwork → Nat
  | .mk _ _ nodes => nodesSize nodes + 1
end

/-- Term-size measure used as flattening fuel. -/
def networkFuel (net : NodeNetwork) : Nat := netSize net + 1

/-- The free-input scan of `wrap_network_in_scope`: walk one node's inputs,
remembering the first `network` binding seen and collecting the node's id
once per `network` binding; the source's
`assert_eq!(input, input_type.as_ref().unwrap())` (every free-input binding
must be identical to the first) is modelled by returning `none`. -/
def scanNodeInputs (id : NodeId) :
    List NodeInput → Option NodeInput → List NodeId →
    Option (Option NodeInput × List NodeId)
  | [], input_type, acc => some (input_type, acc)
  | input :: rest, input_type, acc =>
    match input with
    | .network ty =>
      match input_type with
      | Option.none => scanNodeInputs id rest (some (.network ty)) (acc ++ [id])
      | some first =>
        if NodeInput.network ty = first then
          scanNodeInputs id rest (some first) (acc ++ [id])
        else
          Option.none
    | _ => scanNodeInputs id rest input_type acc

/-- The free-input scan over all nodes, in iteration order. -/
def scanFreeInputs :
    List (NodeId × DocumentNode) → Option NodeInput → List NodeId →
    Option (Option NodeInput × List NodeId)
  | [], input_type, acc => some (input_type, acc)
  | (id, node) :: rest, input_type, acc =>
    match scanNodeInputs id node.inputs input_type acc with
    | Option.none => Option.none
    | some (input_type', acc') => scanFreeInputs rest input_type' acc'

/-- `wrap_network_in_scope` (`document_node_types.rs`): flatten every node,
collect the nodes still consuming a network-level free input (asserting all
such bindings identical), return the network unchanged when none were found,
and otherwise build the 3-node begin-scope / inner-network / end-scope
wrapper. Panics (failed assertions and failed catalog lookups) are `none`. -/
def wrap_network_in_scope (network : NodeNetwork) : Option NodeNetwork :=
  let node_ids := network.nodes.map (·.1)
  let network := node_ids.foldl (fun net id => flattenNode (networkFuel net) net id) network
  match scanFreeInputs network.nodes Option.none [] with
  | Option.none => Option.none
  | some (input_type, network_inputs) =>
    let len := network_inputs.length
    let network := network.withInputs network_inputs
    if len = 0 then
      some network
    else
      match resolve_document_node_type "Begin Scope" with
      | Option.none => Option.none
      | some begin_scope =>
        match input_type with
        | Option.none => Option.none
        | some it =>
          match begin_scope.to_document_node [it] DocumentNodeMetadata.default with
          | Option.none => Option.none
          | some begin_node =>
            let inner_network : DocumentNode :=
              .mk "Scope" (List.replicate len (NodeInput.nodeRef 0 1))
                (.network network) DocumentNodeMetadata.default
            match resolve_document_node_type "End Scope" with
            | Option.none => Option.none
            | some end_scope =>
              match end_scope.to_document_node
                  [NodeInput.nodeRef 0 0, NodeInput.nodeRef 1 0]
                  DocumentNodeMetadata.default with
              | Option.none => Option.none
              | some end_node =>
                some (.mk [0] [NodeOutput.new 2 0]
                  [(0, begin_node), (1, inner_network), (2, end_node)])

/-! ## Property-panel widgets (`node_properties.rs`)

The widget layer is embedded structurally: each widget constructor carries
the data that the source supplies to it (labels, entry names, selected
indices, number-input properties). The `on_update` message closures attached
to widgets are not representable as comparable data and are not carried;
no claim inspects them. Panics (`expect` on an invalid input index,
out-of-bounds indexing) are modelled as `none` results. -/

inductive SeparatorType where
  | Unrelated
  | Related
deriving DecidableEq

/-- `NumberInput` widget properties. The Rust builder methods `min`, `max`,
`unit`, `value` and `int` are modelled by the `set*` functions below (the
field names collide with the builder names in Lean). -/
structure NumberInput where
  value : Option ℚ := Option.none
  label : String := ""
  unit : String := ""
  min : Option ℚ := Option.none
  max : Option ℚ := Option.none
  is_integer : Bool := false
deriving DecidableEq

def NumberInput.setMin (p : NumberInput) (v : ℚ) : NumberInput := { p with min := some v }

def NumberInput.setMax (p : NumberInput) (v : ℚ) : NumberInput := { p with max := some v }

def NumberInput.setUnit (p : NumberInput) (u : String) : NumberInput := { p with unit := u }

def NumberInput.setValue (p : NumberInput) (v : Option ℚ) : NumberInput := { p with value := v }

def NumberInput.setInt (p : NumberInput) : NumberInput := { p with is_integer := true }

inductive WidgetHolder where
  | textLabel (text : String)
  | separator (ty : SeparatorType)
  | parameterExposeButton (exposed : Bool) (data_type : FrontendGraphDataType)
  | dropdownInput (entries : List (List String)) (selected_index : Option Nat)
  | radioInput (entries : List String) (selected_index : Nat)
  | numberInput (props : NumberInput)
deriving DecidableEq

inductive LayoutGroup where
  | row (widgets : List WidgetHolder)
deriving DecidableEq

/-- `expose_widget`: the parameter-expose button (its update closure is not
carried). -/
def expose_widget (exposed : Bool) (data_type : FrontendGraphDataType) : WidgetHolder :=
  .parameterExposeButton exposed data_type

/-- `add_blank_assist`: four unrelated separators appended in place. -/
def add_blank_assist (widgets : List WidgetHolder) : List WidgetHolder :=
  widgets ++
    [ .separator .Unrelated, .separator .Unrelated,
      .separator .Unrelated, .separator .Unrelated ]

/-- `start_widgets`: expose button, separator and name label for one input
slot; the source's `.get(index).expect(..)` panic when the index is invalid
is modelled as `none`. -/
def start_widgets (document_node : DocumentNode) (index : Nat) (name : String)
    (data_type : FrontendGraphDataType) (blank_assist : Bool) :
    Option (List WidgetHolder) :=
  match document_node.inputs.get? index with
  | Option.none => Option.none
  | some input =>
    let widgets :=
      [ expose_widget input.is_exposed data_type,
        .separator .Unrelated,
        .textLabel name ]
    some (if blank_assist then add_blank_assist widgets else widgets)

/-- `number_widget`: `start_widgets` plus, when the slot holds an unexposed
numeric literal (`F64`, `U32` or `F32`), the configured `NumberInput`. -/
def number_widget (document_node : DocumentNode) (index : Nat) (name : String)
    (number_props : NumberInput) (blank_assist : Bool) :
    Option (List WidgetHolder) :=
  match start_widgets document_node index name .Number blank_assist with
  | Option.none => Option.none
  | some widgets =>
    let extra :=
      match document_node.inputs.get? index with
      | some (.value (.f64 x) false) =>
        [WidgetHolder.separator .Unrelated, .numberInput (number_props.setValue (some x))]
      | some (.value (.u32 x) false) =>
        [WidgetHolder.separator .Unrelated, .numberInput (number_props.setValue (some (x : ℚ)))]
      | some (.value (.f32 x) false) =>
        [WidgetHolder.separator .Unrelated, .numberInput (number_props.setValue (some x))]
      | _ => []
    some (widgets ++ extra)

/-- The colors-choice pattern of `adjust_selective_color_properties`'s
second `if let`: a literal `SelectiveColorChoice` value (any exposure). -/
def colorsChoiceOf : NodeInput → Option SelectiveColorChoice
  | .value (.selectiveColorChoice choice) _ => some choice
  | _ => Option.none

/-- The colors-choice pattern of the first `if let` (requires the literal
to be unexposed). -/
def colorsChoiceUnexposed : NodeInput → Option SelectiveColorChoice
  | .value (.selectiveColorChoice choice) false => some choice
  | _ => Option.none

/-- The positional CMYK slot table of `adjust_selective_color_properties`. -/
def selectiveColorCmykSlots (choice : SelectiveColorChoice) :
    (Nat × String) × (Nat × String) × (Nat × String) × (Nat × String) :=
  match choice with
  | .Reds => ((2, "(Reds) Cyan"), (3, "(Reds) Magenta"), (4, "(Reds) Yellow"), (5, "(Reds) Black"))
  | .Yellows => ((6, "(Yellows) Cyan"), (7, "(Yellows) Magenta"), (8, "(Yellows) Yellow"), (9, "(Yellows) Black"))
  | .Greens => ((10, "(Greens) Cyan"), (11, "(Greens) Magenta"), (12, "(Greens) Yellow"), (13, "(Greens) Black"))
  | .Cyans => ((14, "(Cyans) Cyan"), (15, "(Cyans) Magenta"), (16, "(Cyans) Yellow"), (17, "(Cyans) Black"))
  | .Blues => ((18, "(Blues) Cyan"), (19, "(Blues) Magenta"), (20, "(Blues) Yellow"), (21, "(Blues) Black"))
  | .Magentas => ((22, "(Magentas) Cyan"), (23, "(Magentas) Magenta"), (24, "(Magentas) Yellow"), (25, "(Magentas) Black"))
  | .Whites => ((26, "(Whites) Cyan"), (27, "(Whites) Magenta"), (28, "(Whites) Yellow"), (29, "(Whites) Black"))
  | .Neutrals => ((30, "(Neutrals) Cyan"), (31, "(Neutrals) Magenta"), (32, "(Neutrals) Yellow"), (33, "(Neutrals) Black"))
  | .Blacks => ((34, "(Blacks) Cyan"), (35, "(Blacks) Magenta"), (36, "(Blacks) Yellow"), (37, "(Blacks) Black"))

/-- `adjust_selective_color_properties`: the Selective Color property
layout. The colors-choice slot is read at the hardcoded index 38; when it
does not hold a `SelectiveColorChoice` literal the source logs a warning
and returns an empty layout (`return vec![]`); reading a missing index 38
(or a missing CMYK/mode slot) panics, modelled as `none`. -/
def adjust_selective_color_properties (document_node : DocumentNode) :
    Option (List LayoutGroup) :=
  let colors_index := 38
  let colors0 := add_blank_assist
    [WidgetHolder.textLabel "Colors", .separator .Unrelated]
  match document_node.inputs.get? colors_index with
  | Option.none => Option.none
  | some input38 =>
    let colors :=
      match colorsChoiceUnexposed input38 with
      | some choice =>
        colors0 ++
          [WidgetHolder.dropdownInput
            [ ["Reds", "Yellows", "Greens", "Cyans", "Blues", "Magentas"],
              ["Whites", "Neutrals", "Blacks"] ]
            (some choice.toIndex)]
      | Option.none => colors0
    match colorsChoiceOf input38 with
    | Option.none => some []
    | some colors_choice_index =>
      let (c, m, y, k) := selectiveColorCmykSlots colors_choice_index
      let props : NumberInput :=
        (({} : NumberInput).setMin (-100)).setMax 100 |>.setUnit "%"
      match number_widget document_node c.1 c.2 props true with
      | Option.none => Option.none
      | some cyan =>
      match number_widget document_node m.1 m.2 props true with
      | Option.none => Option.none
      | some magenta =>
      match number_widget document_node y.1 y.2 props true with
      | Option.none => Option.none
      | some yellow =>
      match number_widget document_node k.1 k.2 props true with
      | Option.none => Option.none
      | some black =>
        let mode_index := 1
        match start_widgets document_node mode_index "Mode" .General true with
        | Option.none => Option.none
        | some mode0 =>
          let mode1 := mode0 ++ [WidgetHolder.separator .Unrelated]
          let mode :=
            match document_node.inputs.get? mode_index with
            | some (.value (.relativeAbsolute relative_or_absolute) false) =>
              mode1 ++ [WidgetHolder.radioInput ["Relative", "Absolute"]
                relative_or_absolute.toIndex]
            | _ => mode1
          some
            [ LayoutGroup.row colors,
              LayoutGroup.row cyan,
              LayoutGroup.row magenta,
              LayoutGroup.row yellow,
              LayoutGroup.row black,
              LayoutGroup.row mode ]

/-! ## SVG rendering state (`renderer.rs`) -/

/-- A segment of an SVG string (`SvgSegment`): a static slice, an owned
string, or a blob-url placeholder. -/
inductive SvgSegment where
  | slice (s : String)
  | str (s : String)
  | blobUrl (id : Nat)
deriving DecidableEq

/-- Mutable state used whilst rendering to an SVG (`SvgRender`). -/
structure SvgRender where
  svg : List SvgSegment
  svg_defs : String
  transform : DAffine2
  image_data : List (Nat × Image)
  indent : Nat
deriving DecidableEq

/-- `SvgRender::new()`. -/
def SvgRender.new : SvgRender :=
  { svg := [], svg_defs := "", transform := DAffine2.IDENTITY,
    image_data := [], indent := 0 }

def SvgRender.push (r : SvgRender) (s : SvgSegment) : SvgRender :=
  { r with svg := r.svg ++ [s] }

/-- A run of `n` tab characters (`"\t".repeat(n)`). -/
def tabRun (n : Nat) : String := String.mk (List.replicate n '\t')

/-- `SvgRender::indent()`: push a newline and the current indentation. -/
def SvgRender.indentLine (r : SvgRender) : SvgRender :=
  (r.push (.slice "\n")).push (.str (tabRun r.indent))

/-- Attribute-callback helper `SvgRenderAttrs::push` (pushing
` name="value"`); callbacks are modelled as functions on the render state,
`SvgRenderAttrs` being a newtype around `&mut SvgRender`. -/
def svgAttrPush (name value : SvgSegment) (r : SvgRender) : SvgRender :=
  ((((r.push (.slice " ")).push name).push (.slice "=\"")).push value).push (.slice "\"")

/-- `SvgRender::leaf_tag`: a self-closing tag with attributes. -/
def SvgRender.leaf_tag (r : SvgRender) (name : SvgSegment)
    (attributes : SvgRender → SvgRender) : SvgRender :=
  (attributes ((r.indentLine.push (.slice "<")).push name)).push (.slice "/>")

/-- `SvgRender::parent_tag`: open a tag, run the attribute and child
callbacks, and either close the tag (when the child callback pushed at
least one segment) or pop the `">"` and emit a self-closing tag (when it
pushed nothing, measured by comparing list lengths, as in the source). -/
def SvgRender.parent_tag (r : SvgRender) (name : SvgSegment)
    (attributes : SvgRender → SvgRender) (inner : SvgRender → SvgRender) : SvgRender :=
  let r2 := (r.indentLine.push (.slice "<")).push name
  let r4 := (attributes r2).push (.slice ">")
  let length := r4.svg.length
  let r5 := { r4 with indent := r4.indent + 1 }
  let r7 := { inner r5 with indent := (inner r5).indent - 1 }
  if r7.svg.length ≠ length then
    ((r7.indentLine.push (.slice "</")).push name).push (.slice ">")
  else
    ({ r7 with svg := r7.svg.dropLast }).push (.slice "/>")

/-! ## Quads and bounding boxes

`renderer.rs` declares `mod quad;` but the file `quad.rs` is not among the
sources; `Quad` is modelled from the spec: an axis-aligned box is carried as
its four corners, a transform maps each corner, the bounding box is the
componentwise min/max of the corners, and `combine_bounds` is the
componentwise min/max union of two boxes (spec §4.3 "Bounding box
computation"). -/

/-- A box as `[min, max]` corners. -/
abbrev Box := DVec2 × DVec2

/-- Modelled from the spec: a quad — four corner points. -/
structure Quad where
  p0 : DVec2
  p1 : DVec2
  p2 : DVec2
  p3 : DVec2
deriving DecidableEq

/-- Modelled from the spec: `Quad::from_box([min, max])`. -/
def Quad.from_box (b : Box) : Quad :=
  ⟨b.1, ⟨b.2.x, b.1.y⟩, b.2, ⟨b.1.x, b.2.y⟩⟩

/-- Modelled from the spec: `transform * quad` maps every corner. -/
def Quad.applyTransform (t : DAffine2) (q : Quad) : Quad :=
  ⟨t.transform_point2 q.p0, t.transform_point2 q.p1,
   t.transform_point2 q.p2, t.transform_point2 q.p3⟩

/-- Modelled from the spec: `Quad::bounding_box` — componentwise min/max of
the corners. -/
def Quad.bounding_box (q : Quad) : Box :=
  (((q.p0.minc q.p1).minc q.p2).minc q.p3, ((q.p0.maxc q.p1).maxc q.p2).maxc q.p3)

/-- Modelled from the spec: `Quad::combine_bounds` — the componentwise
min/max union of two boxes. -/
def Quad.combine_bounds (a b : Box) : Box :=
  (a.1.minc b.1, a.2.maxc b.2)

/-- `ImageFrame::bounding_box` (`renderer.rs`): the bounding box of the unit
square under `self.transform * transform`, or `None` when the composed
linear part is the zero matrix. -/
def ImageFrame.bounding_box (self : ImageFrame) (transform : DAffine2) : Option Box :=
  let transform := self.transform * transform
  if transform.matrix2 ≠ DMat2.ZERO then
    some (Quad.applyTransform transform (Quad.from_box (DVec2.ZERO, DVec2.ONE))).bounding_box
  else
    Option.none

/-- `VectorData::bounding_box_with_transform`, under the polyline model of
path geometry: the min/max bounds of all transformed points, `None` for
empty geometry. -/
def VectorData.bounding_box_with_transform (v : VectorData) (t : DAffine2) : Option Box :=
  let points := (v.subpaths.flatten).map t.transform_point2
  match points with
  | [] => Option.none
  | p :: rest =>
    some (rest.foldl (fun acc q => (acc.1.minc q, acc.2.maxc q)) (p, p))

/-! ## Scene graph values (`GraphicElementData` and its `bounding_box`) -/

/-- The runtime scene value (`GraphicElementData`): vector shape, image
frame, text (reserved), nested group, or artboard. The `GraphicGroup`
wrapper (a vector of elements) is modelled as the list of child values, and
the `Artboard` struct's fields are carried on its constructor. -/
inductive GraphicElementData where
  | vectorShape (vector_data : VectorData)
  | imageFrame (image_frame : ImageFrame)
  | text (text : String)
  | graphicGroup (children : List GraphicElementData)
  | artboard (graphic_group : List GraphicElementData)
      (location : IVec2) (dimensions : IVec2) (background : Color) (clip : Bool)

/-- Left-to-right `reduce(Quad::combine_bounds)` over the boxes that exist
(`filter_map` + `reduce` in the source). -/
def reduceCombineBounds : List (Option Box) → Option Box
  | [] => Option.none
  | Option.none :: rest => reduceCombineBounds rest
  | some b :: rest =>
    some ((rest.filterMap id).foldl Quad.combine_bounds b)

/-- Sequence child bounding-box results, propagating a `Text` panic: `none`
when any child panicked, otherwise the list of per-child optional boxes. -/
def sequenceBoxes : List (Option (Option Box)) → Option (List (Option Box))
  | [] => some []
  | Option.none :: _ => Option.none
  | some b :: rest =>
    match sequenceBoxes rest with
    | Option.none => Option.none
    | some bs => some (b :: bs)

/-- `GraphicElementRendered::bounding_box`, dispatched over the scene-value
variants (`renderer.rs`). The result is doubly optional: the outer `none`
models the `todo!()` panic on `Text` values (propagated through groups);
the inner option is the source's `Option<[DVec2; 2]>`. -/
def GraphicElementData.bounding_box : GraphicElementData → DAffine2 → Option (Option Box)
  | .vectorShape v, transform =>
    some (v.bounding_box_with_transform (v.transform * transform))
  | .imageFrame f, transform => some (f.bounding_box transform)
  | .text _, _ => Option.none
  | .graphicGroup children, transform =>
    match sequenceBoxes (children.attach.map fun c => c.1.bounding_box transform) with
    | Option.none => Option.none
    | some boxes => some (reduceCombineBounds boxes)
  | .artboard graphic_group location dimensions _ _, transform =>
    let artboard_bounds :=
      (Quad.applyTransform transform
        (Quad.from_box (location.as_dvec2,
          location.as_dvec2 + dimensions.as_dvec2))).bounding_box
    match sequenceBoxes (graphic_group.attach.map fun c => c.1.bounding_box transform) with
    | Option.none => Option.none
    | some boxes =>
      some (reduceCombineBounds (reduceCombineBounds boxes :: [some artboard_bounds]))
termination_by e _ => sizeOf e
decreasing_by
  all_goals simp_wf
  all_goals have := List.sizeOf_lt_of_mem c.2
  all_goals omega

/-! ## Derived notions used by the verification statements -/

/-- The network-level free-input references of a network: every `network`
binding occurring among the nodes' inputs, as `(consuming node id, declared
type)` pairs in iteration order. -/
def freeBindingsOfInputs (id : NodeId) (inputs : List NodeInput) : List (NodeId × Ty) :=
  inputs.filterMap fun i =>
    match i with
    | .network ty => some (id, ty)
    | _ => Option.none

/-- All free-input references of a network. -/
def freeBindings (net : NodeNetwork) : List (NodeId × Ty) :=
  (net.nodes.map fun p => freeBindingsOfInputs p.1 p.2.inputs).flatten

/-- A network is flat when no node's implementation is a nested network
(the state produced by step 1 of `wrap_network_in_scope`). -/
def NodeNetwork.isFlat (net : NodeNetwork) : Prop :=
  ∀ p ∈ net.nodes, ∀ inner, p.2.implementation ≠ .network inner

/-- The input slots of a catalog entry whose literal default value does not
tag-match the slot's declared semantic type, as
`(entry name, slot name)` pairs. -/
def slotMismatches (entry : DocumentNodeType) : List (String × String) :=
  entry.inputs.filterMap fun slot =>
    match slot.default with
    | .value tv _ =>
      if slot.data_type = FrontendGraphDataType.with_tagged_value tv then Option.none
      else some (entry.name, slot.name)
    | _ => Option.none

/-- `outer` contains `inner`, both boxes read as `[min, max]`. -/
def boxContains (outer inner : Box) : Prop :=
  outer.1.x ≤ inner.1.x ∧ outer.1.y ≤ inner.1.y ∧
  inner.2.x ≤ outer.2.x ∧ inner.2.y ≤ outer.2.y

/-- A scene value free of `Text` nodes (on which `bounding_box` is
`todo!()`). -/
def GraphicElementData.textFree : GraphicElementData → Bool
  | .text _ => false
  | .graphicGroup children => children.attach.all fun c => c.1.textFree
  | .artboard graphic_group _ _ _ _ => graphic_group.attach.all fun c => c.1.textFree
  | _ => true
termination_by e => sizeOf e
decreasing_by
  all_goals simp_wf
  all_goals have := List.sizeOf_lt_of_mem c.2
  all_goals omega

/-! ## Helper lemmas -/

theorem mem_of_lookup_eq_some {l : List (NodeId × DocumentNode)} {k : NodeId}
    {v : DocumentNode} (h : l.lookup k = some v) : (k, v) ∈ l := by
  induction l with
  | nil => cases h
  | cons p rest ih =>
    obtain ⟨k', v'⟩ := p
    by_cases hk : k = k'
    · subst hk
      have hbeq : (k == k) = true := by simp
      simp only [List.lookup, hbeq] at h
      cases h
      exact List.mem_cons_self _ _
    · have hbeq : (k == k') = false := by simp [hk]
      simp only [List.lookup, hbeq] at h
      exact List.mem_cons_of_mem _ (ih h)

theorem flattenNode_flat (fuel : Nat) (net : NodeNetwork) (id : NodeId)
    (hflat : net.isFlat) : flattenNode fuel net id = net := by
  cases fuel with
  | zero => rfl
  | succ n =>
    cases hl : net.nodes.lookup id with
    | none => simp only [flattenNode, hl]
    | some node =>
      cases himpl : node.implementation with
      | network inner =>
        exact absurd himpl (hflat _ (mem_of_lookup_eq_some hl) inner)
      | unresolved s => simp only [flattenNode, hl, himpl]
      | extract => simp only [flattenNode, hl, himpl]

theorem foldl_flatten_flat (ids : List NodeId) (net : NodeNetwork)
    (hflat : net.isFlat) :
    ids.foldl (fun acc nid => flattenNode (networkFuel acc) acc nid) net = net := by
  induction ids with
  | nil => rfl
  | cons i rest ih =>
    rw [List.foldl_cons, flattenNode_flat _ _ _ hflat]
    exact ih

/-- The free-input scan of `wrap_network_in_scope`, restated over the flat
list of `(consuming id, declared type)` references it walks. -/
def scanBindings :
    List (NodeId × Ty) → Option NodeInput → List NodeId →
    Option (Option NodeInput × List NodeId)
  | [], input_type, acc => some (input_type, acc)
  | (id, ty) :: rest, input_type, acc =>
    match input_type with
    | Option.none => scanBindings rest (some (.network ty)) (acc ++ [id])
    | some first =>
      if NodeInput.network ty = first then
        scanBindings rest (some first) (acc ++ [id])
      else
        Option.none

theorem scanNodeInputs_eq_scanBindings (id : NodeId) (inputs : List NodeInput)
    (input_type : Option NodeInput) (acc : List NodeId) :
    scanNodeInputs id inputs input_type acc =
      scanBindings (freeBindingsOfInputs id inputs) input_type acc := by
  induction inputs generalizing input_type acc with
  | nil => rfl
  | cons i rest ih =>
    cases i with
    | network ty =>
      cases input_type with
      | none =>
        simp only [scanNodeInputs, freeBindingsOfInputs, List.filterMap_cons, scanBindings]
        exact ih _ _
      | some first =>
        by_cases heq : NodeInput.network ty = first
        · simp only [scanNodeInputs, freeBindingsOfInputs, List.filterMap_cons, scanBindings,
            if_pos heq]
          exact ih _ _
        · simp only [scanNodeInputs, freeBindingsOfInputs, List.filterMap_cons, scanBindings,
            if_neg heq]
    | node a b c =>
      simp only [scanNodeInputs, freeBindingsOfInputs, List.filterMap_cons]
      exact ih _ _
    | value tv e =>
      simp only [scanNodeInputs, freeBindingsOfInputs, List.filterMap_cons]
      exact ih _ _
    | shortCircut ty =>
      simp only [scanNodeInputs, freeBindingsOfInputs, List.filterMap_cons]
      exact ih _ _

theorem scanBindings_append (l1 l2 : List (NodeId × Ty)) (input_type : Option NodeInput)
    (acc : List NodeId) :
    scanBindings (l1 ++ l2) input_type acc =
      match scanBindings l1 input_type acc with
      | Option.none => Option.none
      | some (input_type', acc') => scanBindings l2 input_type' acc' := by
  induction l1 generalizing input_type acc with
  | nil => rfl
  | cons p rest ih =>
    obtain ⟨id, ty⟩ := p
    cases input_type with
    | none =>
      simp only [List.cons_append, scanBindings]
      exact ih _ _
    | some first =>
      by_cases heq : NodeInput.network ty = first
      · simp only [List.cons_append, scanBindings, if_pos heq]
        exact ih _ _
      · simp only [List.cons_append, scanBindings, if_neg heq]

theorem scanFreeInputs_eq_scanBindings (nodes : List (NodeId × DocumentNode))
    (input_type : Option NodeInput) (acc : List NodeId) :
    scanFreeInputs nodes input_type acc =
      scanBindings ((nodes.map fun p => freeBindingsOfInputs p.1 p.2.inputs).flatten)
        input_type acc := by
  induction nodes generalizing input_type acc with
  | nil => rfl
  | cons p rest ih =>
    simp only [scanFreeInputs, List.map_cons, List.flatten_cons,
      scanNodeInputs_eq_scanBindings, scanBindings_append]
    cases scanBindings (freeBindingsOfInputs p.1 p.2.inputs) input_type acc with
    | none => rfl
    | some st =>
      obtain ⟨input_type', acc'⟩ := st
      exact ih _ _

theorem scanBindings_uniform (l : List (NodeId × Ty)) (ty0 : Ty) (acc : List NodeId)
    (h : ∀ p ∈ l, p.2 = ty0) :
    scanBindings l (some (.network ty0)) acc =
      some (some (.network ty0), acc ++ l.map (·.1)) := by
  induction l generalizing acc with
  | nil => simp [scanBindings]
  | cons p rest ih =>
    obtain ⟨id, ty⟩ := p
    have hty : ty = ty0 := h (id, ty) (List.mem_cons_self _ _)
    subst hty
    simp only [scanBindings, if_pos rfl]
    rw [ih _ fun q hq => h q (List.mem_cons_of_mem _ hq)]
    simp

theorem scanBindings_mixed (l : List (NodeId × Ty)) (first : NodeInput) (acc : List NodeId)
    (h : ∃ q ∈ l, NodeInput.network q.2 ≠ first) :
    scanBindings l (some first) acc = Option.none := by
  induction l generalizing acc with
  | nil =>
    obtain ⟨q, hq, _⟩ := h
    cases hq
  | cons p rest ih =>
    obtain ⟨id, ty⟩ := p
    by_cases heq : NodeInput.network ty = first
    · simp only [scanBindings, if_pos heq]
      apply ih
      obtain ⟨q, hq, hne⟩ := h
      rcases List.mem_cons.mp hq with hhead | htail
      · exact absurd (hhead ▸ heq) hne
      · exact ⟨q, htail, hne⟩
    · simp only [scanBindings, if_neg heq]

theorem scanBindings_none_of_two_different (l : List (NodeId × Ty))
    (h : ∃ p ∈ l, ∃ q ∈ l, p.2 ≠ q.2) :
    scanBindings l Option.none [] = Option.none := by
  cases l with
  | nil =>
    obtain ⟨p, hp, _⟩ := h
    cases hp
  | cons hd rest =>
    obtain ⟨id, ty⟩ := hd
    simp only [scanBindings]
    apply scanBindings_mixed
    obtain ⟨p, hp, q, hq, hne⟩ := h
    have key : ∃ r ∈ rest, r.2 ≠ ty := by
      by_cases hpty : p.2 = ty
      · have hqty : q.2 ≠ ty := fun hq2 => hne (hpty.trans hq2.symm)
        rcases List.mem_cons.mp hq with hh | ht
        · exact absurd (by rw [hh]) hqty
        · exact ⟨q, ht, hqty⟩
      · rcases List.mem_cons.mp hp with hh | ht
        · exact absurd (by rw [hh]) hpty
        · exact ⟨p, ht, hpty⟩
    obtain ⟨r, hr, hrty⟩ := key
    refine ⟨r, hr, fun hcon => hrty ?_⟩
    cases hcon
    rfl

theorem overrideInputs_length (slots : List DocumentInputType)
    (overrides : List (Option NodeInput)) :
    (overrideInputs slots overrides).length = slots.length := by
  induction slots generalizing overrides with
  | nil => rfl
  | cons s ss ih =>
    cases overrides with
    | nil => simp [overrideInputs, ih]
    | cons o os => simp [overrideInputs, ih]

theorem overrideInputs_get? (slots : List DocumentInputType)
    (overrides : List (Option NodeInput)) (i : Nat) (slot : DocumentInputType)
    (hs : slots.get? i = some slot) :
    (overrideInputs slots overrides).get? i =
      some (((overrides.get? i).join).getD slot.default) := by
  induction slots generalizing overrides i with
  | nil => cases hs
  | cons s ss ih =>
    cases i with
    | zero =>
      cases hs
      cases overrides with
      | nil => simp [overrideInputs]
      | cons o os => cases o <;> simp [overrideInputs]
    | succ i =>
      cases overrides with
      | nil =>
        simpa [overrideInputs] using ih [] i hs
      | cons o os =>
        simpa [overrideInputs] using ih os i hs

theorem sequenceBoxes_isSome (l : List (Option (Option Box)))
    (h : ∀ x ∈ l, x.isSome) : (sequenceBoxes l).isSome := by
  induction l with
  | nil => simp [sequenceBoxes]
  | cons x rest ih =>
    cases x with
    | none =>
      have := h Option.none (List.mem_cons_self _ _)
      simp at this
    | some b =>
      simp only [sequenceBoxes]
      cases hrest : sequenceBoxes rest with
      | none =>
        have := ih fun y hy => h y (List.mem_cons_of_mem _ hy)
        rw [hrest] at this
        simp at this
      | some bs => simp

theorem DMat2.zero_mul (m : DMat2) : DMat2.ZERO * m = DMat2.ZERO := by
  show DMat2.mul DMat2.ZERO m = DMat2.ZERO
  simp [DMat2.mul, DMat2.mulVec, DMat2.ZERO, DVec2.ZERO]

/-! ## Claim theorems -/

/-- C3: for every descriptor and input-binding list, `to_document_node`
fails (assertion, modelled as `none`) exactly when the list's length
differs from the descriptor's declared input count; otherwise it succeeds
with a node whose binding list is exactly that list (hence of that length)
and whose implementation is derived from the descriptor — a primitive
identifier carried through, a nested network cloned, the extract marker
carried through. -/
theorem to_document_node_spec (d : DocumentNodeType) (inputs : List NodeInput)
    (metadata : DocumentNodeMetadata) :
    (d.to_document_node inputs metadata = Option.none ↔
      inputs.length ≠ d.inputs.length) ∧
    (∀ node, d.to_document_node inputs metadata = some node →
      node.inputs = inputs ∧ node.inputs.length = inputs.length ∧
      node.name = d.name ∧ node.metadata = metadata ∧
      node.implementation = d.generate_implementation ∧
      (∀ ident, d.identifier = .proto ident →
        node.implementation = .unresolved ident) ∧
      (∀ inner, d.identifier = .documentNode inner →
        node.implementation = .network inner) ∧
      (d.identifier = .extract → node.implementation = .extract)) := by
  constructor
  · unfold DocumentNodeType.to_document_node
    by_cases hlen : inputs.length = d.inputs.length
    · simp [hlen]
    · simp [hlen]
  · intro node h
    unfold DocumentNodeType.to_document_node at h
    by_cases hlen : inputs.length = d.inputs.length
    · rw [if_pos hlen] at h
      cases h
      refine ⟨rfl, rfl, rfl, rfl, rfl, ?_, ?_, ?_⟩
      · intro ident hid
        simp [DocumentNode.implementation, DocumentNodeType.generate_implementation, hid]
      · intro inner hid
        simp [DocumentNode.implementation, DocumentNodeType.generate_implementation, hid]
      · intro hid
        simp [DocumentNode.implementation, DocumentNodeType.generate_implementation, hid]
    · rw [if_neg hlen] at h
      cases h

/-- C3 witness: the "End Scope" descriptor (2 declared inputs) rejects an
empty binding list and accepts a 2-element one, producing 2 bindings. -/
theorem to_document_node_spec_witness :
    (endScopeType.to_document_node [] DocumentNodeMetadata.default = Option.none) ∧
    (∃ node,
      endScopeType.to_document_node
        [NodeInput.value .none true, NodeInput.value (.imageFrame ImageFrame.empty) true]
        DocumentNodeMetadata.default = some node ∧
      node.inputs.length = 2) := by
  constructor
  · exact (to_document_node_spec endScopeType [] DocumentNodeMetadata.default).1.mpr
      (by decide)
  · refine ⟨DocumentNode.mk endScopeType.name
      [NodeInput.value .none true, NodeInput.value (.imageFrame ImageFrame.empty) true]
      endScopeType.generate_implementation DocumentNodeMetadata.default, rfl, ?_⟩
    have h := (to_document_node_spec endScopeType
      [NodeInput.value .none true, NodeInput.value (.imageFrame ImageFrame.empty) true]
      DocumentNodeMetadata.default).2 _ rfl
    rw [h.1]
    rfl

/-- C6: `to_document_node_default_inputs` always succeeds, its node has
exactly one binding per descriptor slot, the `i`-th binding equals the
`i`-th override when that entry is present and non-empty, and equals the
descriptor's `i`-th default binding when the entry is missing (sequence
exhausted) or empty (`None`). -/
theorem to_document_node_default_inputs_spec (d : DocumentNodeType)
    (input_override : List (Option NodeInput)) (metadata : DocumentNodeMetadata) :
    ∃ node, d.to_document_node_default_inputs input_override metadata = some node ∧
      node.inputs.length = d.inputs.length ∧
      (∀ i x, i < d.inputs.length → input_override.get? i = some (some x) →
        node.inputs.get? i = some x) ∧
      (∀ i slot, d.inputs.get? i = some slot →
        (input_override.get? i = Option.none ∨ input_override.get? i = some Option.none) →
        node.inputs.get? i = some slot.default) := by
  refine ⟨DocumentNode.mk d.name (overrideInputs d.inputs input_override)
      d.generate_implementation metadata, ?_, ?_, ?_, ?_⟩
  · unfold DocumentNodeType.to_document_node_default_inputs DocumentNodeType.to_document_node
    rw [if_pos (overrideInputs_length _ _)]
  · exact overrideInputs_length _ _
  · intro i x hi hov
    have hs : d.inputs.get? i = some (d.inputs.get ⟨i, hi⟩) := List.get?_eq_get hi
    show (overrideInputs d.inputs input_override).get? i = some x
    rw [overrideInputs_get? _ _ _ _ hs, hov]
    rfl
  · intro i slot hs hov
    show (overrideInputs d.inputs input_override).get? i = some slot.default
    rw [overrideInputs_get? _ _ _ _ hs]
    rcases hov with h | h <;> rw [h] <;> rfl

/-- C6 witness: overriding only the second slot of the "End Scope"
descriptor with an explicit binding keeps the first slot's default and
installs the override. -/
theorem to_document_node_default_inputs_spec_witness :
    ∃ node,
      endScopeType.to_document_node_default_inputs
        [Option.none, some (NodeInput.nodeRef 7 0)] DocumentNodeMetadata.default =
        some node ∧
      node.inputs.length = 2 ∧
      node.inputs.get? 0 = some (NodeInput.value .none true) ∧
      node.inputs.get? 1 = some (NodeInput.nodeRef 7 0) := by
  obtain ⟨node, hnode, hlen, hover, hdef⟩ :=
    to_document_node_default_inputs_spec endScopeType
      [Option.none, some (NodeInput.nodeRef 7 0)] DocumentNodeMetadata.default
  refine ⟨node, hnode, hlen, ?_, ?_⟩
  · exact hdef 0 ⟨"Scope", .General, NodeInput.value .none true⟩ rfl (Or.inr rfl)
  · exact hover 1 (NodeInput.nodeRef 7 0) (by decide) rfl

/-- C8: an image-frame scene node whose local transform has a zero linear
(2×2) part has no bounding box, for every translation component and every
accumulated transform argument. -/
theorem image_frame_degenerate_bounding_box (frame : ImageFrame) (transform : DAffine2)
    (h : frame.transform.matrix2 = DMat2.ZERO) :
    frame.bounding_box transform = Option.none := by
  have hm : (frame.transform * transform).matrix2 = DMat2.ZERO := by
    rw [show (frame.transform * transform).matrix2 =
        frame.transform.matrix2 * transform.matrix2 from rfl, h, DMat2.zero_mul]
  unfold ImageFrame.bounding_box
  rw [if_neg fun hcon => hcon hm]

/-- C8 witness: the empty image frame (zero linear part, zero translation)
has no bounding box under the identity transform. -/
theorem image_frame_degenerate_bounding_box_witness :
    ImageFrame.empty.transform.matrix2 = DMat2.ZERO ∧
    ImageFrame.empty.bounding_box DAffine2.IDENTITY = Option.none :=
  ⟨rfl, image_frame_degenerate_bounding_box ImageFrame.empty DAffine2.IDENTITY rfl⟩

/-- C2 counterexample: the "Grayscale" catalog entry's slot 1 ("Tint") is
declared `Number` but its literal default is a `Color` value, whose tag
matches `Color`, not `Number` — so not every slot's default tag-matches its
declared semantic type. -/
theorem grayscale_tint_tag_mismatch :
    (resolve_document_node_type "Grayscale").map (fun g => g.inputs.get? 1) =
      some (some ⟨"Tint", .Number, NodeInput.value (.color Color.BLACK) false⟩) ∧
    FrontendGraphDataType.with_tagged_value (.color Color.BLACK) ≠
      FrontendGraphDataType.Number := by
  exact ⟨rfl, by decide⟩

/-- C2 (amended): a slot built through `DocumentInputType::value` always
tag-matches by construction (the declared type is derived from the value's
tag), and across the whole static catalog the manually-constructed slots
violate tag-matching in exactly two places: "Load Image"/"path" (declared
`General`, string default) and "Grayscale"/"Tint" (declared `Number`, color
default). -/
theorem catalog_tag_match_amended :
    (∀ (name : String) (tv : TaggedValue) (exposed : Bool),
      (DocumentInputType.value name tv exposed).data_type =
        FrontendGraphDataType.with_tagged_value tv) ∧
    (staticNodes.map slotMismatches).flatten =
      [("Load Image", "path"), ("Grayscale", "Tint")] := by
  exact ⟨fun _ _ _ => rfl, by decide⟩

/-- C2 witness: the constructor-consistency half of the amended claim,
evaluated at the Grayscale Tint value itself. -/
theorem catalog_tag_match_amended_witness :
    (DocumentInputType.value "Tint" (.color Color.BLACK) false).data_type =
      FrontendGraphDataType.with_tagged_value (.color Color.BLACK) :=
  (catalog_tag_match_amended).1 "Tint" (.color Color.BLACK) false

/-- The concrete Selective Color instance used to refute C7: 39 bindings,
all `F32` literals, so the colors-choice slot (index 38) does not hold a
`SelectiveColorChoice` value. -/
def selectiveColorBadNode : DocumentNode :=
  .mk "Selective Color" (List.replicate 39 (NodeInput.value (.f32 0) false))
    (.unresolved "graphene_core::raster::SelectiveColorNode<_, _, _, _, _, _, _, _, _, _, _, _, _, _, _, _, _, _, _, _, _, _, _, _, _, _, _, _, _, _, _, _, _, _, _, _, _>")
    DocumentNodeMetadata.default

/-- C7 counterexample: on a Selective Color instance whose slot 38 holds no
matching `SelectiveColorChoice` variant, `adjust_selective_color_properties`
does not abort (the modelled panic is `none`): it returns normally with an
empty property layout (the source logs a warning and `return vec![]`). -/
theorem adjust_selective_color_no_abort :
    adjust_selective_color_properties selectiveColorBadNode = some [] ∧
    adjust_selective_color_properties selectiveColorBadNode ≠ Option.none := by
  refine ⟨by decide, ?_⟩
  intro h
  rw [show adjust_selective_color_properties selectiveColorBadNode = some [] by decide] at h
  cases h

/-- C7 (amended): whenever a Selective Color instance has an input at index
38 that is not a `SelectiveColorChoice` literal, the property-layout
operation degrades gracefully — it returns an empty layout list instead of
aborting; it only panics when index 38 (or a widget's slot index) is out of
bounds. -/
theorem adjust_selective_color_graceful (node : DocumentNode) (input38 : NodeInput)
    (h38 : node.inputs.get? 38 = some input38)
    (hnc : colorsChoiceOf input38 = Option.none) :
    adjust_selective_color_properties node = some [] := by
  unfold adjust_selective_color_properties
  simp only [h38, hnc]

/-- C7 amended witness: the graceful-degradation theorem applied to the
concrete 39-input instance. -/
theorem adjust_selective_color_graceful_witness :
    adjust_selective_color_properties selectiveColorBadNode = some [] :=
  adjust_selective_color_graceful selectiveColorBadNode
    (NodeInput.value (.f32 0) false) (by decide) rfl

/-- C9: for every tag name, attribute callback and child callback (the
callbacks only appending segments and preserving the indent level, as every
renderer callback does), `parent_tag` emits a matched open/close pair
around the child output when the child callback appended at least one
segment, and collapses to a single self-closing tag when the child callback
produced no new output — in particular an empty contents group (a child
callback appending nothing) renders as a self-closing element. -/
theorem parent_tag_matched_or_self_closing (name : SvgSegment)
    (attributes inner : SvgRender → SvgRender) (r : SvgRender)
    (hattrs : ∀ s, ∃ l, (attributes s).svg = s.svg ++ l ∧ (attributes s).indent = s.indent)
    (hinner : ∀ s, ∃ l, (inner s).svg = s.svg ++ l ∧ (inner s).indent = s.indent) :
    ∃ attrsOut innerOut,
      (innerOut = [] →
        (r.parent_tag name attributes inner).svg =
          r.svg ++ [SvgSegment.slice "\n", SvgSegment.str (tabRun r.indent),
              SvgSegment.slice "<", name] ++ attrsOut ++ [SvgSegment.slice "/>"]) ∧
      (innerOut ≠ [] →
        (r.parent_tag name attributes inner).svg =
          r.svg ++ [SvgSegment.slice "\n", SvgSegment.str (tabRun r.indent),
              SvgSegment.slice "<", name] ++ attrsOut ++ [SvgSegment.slice ">"] ++
            innerOut ++
            [SvgSegment.slice "\n", SvgSegment.str (tabRun r.indent),
              SvgSegment.slice "</", name, SvgSegment.slice ">"]) := by
  set r2 := (r.indentLine.push (SvgSegment.slice "<")).push name with hr2
  obtain ⟨attrsOut, ha1, ha2⟩ := hattrs r2
  set r4 := (attributes r2).push (SvgSegment.slice ">") with hr4
  set r5 : SvgRender := { r4 with indent := r4.indent + 1 } with hr5
  obtain ⟨innerOut, hi1, hi2⟩ := hinner r5
  set r7 : SvgRender := { inner r5 with indent := (inner r5).indent - 1 } with hr7
  have h7svg : r7.svg = r4.svg ++ innerOut := hi1
  have h4svg : r4.svg =
      ((((r.svg ++ [SvgSegment.slice "\n"]) ++ [SvgSegment.str (tabRun r.indent)]) ++
        [SvgSegment.slice "<"]) ++ [name] ++ attrsOut) ++ [SvgSegment.slice ">"] := by
    show (attributes r2).svg ++ [SvgSegment.slice ">"] = _
    rw [ha1]
    rfl
  have h7ind : r7.indent = r.indent := by
    show (inner r5).indent - 1 = r.indent
    rw [hi2]
    show r4.indent + 1 - 1 = r.indent
    rw [Nat.add_sub_cancel]
    exact ha2
  refine ⟨attrsOut, innerOut, fun hempty => ?_, fun hne => ?_⟩
  · simp only [SvgRender.parent_tag]
    rw [← hr2, ← hr4, ← hr5, ← hr7]
    rw [if_neg fun hcon => hcon (by rw [h7svg, hempty, List.append_nil])]
    show r7.svg.dropLast ++ [SvgSegment.slice "/>"] = _
    rw [h7svg, hempty, List.append_nil, h4svg, List.dropLast_concat]
    simp [List.append_assoc]
  · simp only [SvgRender.parent_tag]
    rw [← hr2, ← hr4, ← hr5, ← hr7]
    rw [if_pos (by
      rw [h7svg, List.length_append]
      have := List.length_pos.mpr hne
      omega)]
    show ((r7.svg ++ [SvgSegment.slice "\n"]) ++ [SvgSegment.str (tabRun r7.indent)]) ++
        [SvgSegment.slice "</"] ++ [name] ++ [SvgSegment.slice ">"] = _
    rw [h7svg, h4svg, h7ind]
    simp [List.append_assoc]

/-- C9 witness: the theorem applied with identity callbacks (appending
nothing) to the empty render state — the two hypotheses and the resulting
self-closing collapse. -/
theorem parent_tag_matched_or_self_closing_witness :
    (∀ s : SvgRender, ∃ l, (id s).svg = s.svg ++ l ∧ (id s).indent = s.indent) ∧
    (∃ attrsOut innerOut,
      (innerOut = [] →
        (SvgRender.new.parent_tag (SvgSegment.slice "g") id id).svg =
          SvgRender.new.svg ++ [SvgSegment.slice "\n", SvgSegment.str (tabRun SvgRender.new.indent),
              SvgSegment.slice "<", SvgSegment.slice "g"] ++ attrsOut ++ [SvgSegment.slice "/>"]) ∧
      (innerOut ≠ [] →
        (SvgRender.new.parent_tag (SvgSegment.slice "g") id id).svg =
          SvgRender.new.svg ++ [SvgSegment.slice "\n", SvgSegment.str (tabRun SvgRender.new.indent),
              SvgSegment.slice "<", SvgSegment.slice "g"] ++ attrsOut ++ [SvgSegment.slice ">"] ++
            innerOut ++
            [SvgSegment.slice "\n", SvgSegment.str (tabRun SvgRender.new.indent),
              SvgSegment.slice "</", SvgSegment.slice "g", SvgSegment.slice ">"])) := by
  have hid : ∀ s : SvgRender, ∃ l, (id s).svg = s.svg ++ l ∧ (id s).indent = s.indent :=
    fun s => ⟨[], by simp⟩
  exact ⟨hid, parent_tag_matched_or_self_closing (SvgSegment.slice "g") id id
    SvgRender.new hid hid⟩

theorem bounding_box_total_of_textFree (e : GraphicElementData) (t : DAffine2)
    (htf : e.textFree = true) : (e.bounding_box t).isSome := by
  induction e, t using GraphicElementData.bounding_box.induct with
  | case1 v transform => simp [GraphicElementData.bounding_box]
  | case2 f transform => simp [GraphicElementData.bounding_box]
  | case3 s t => simp [GraphicElementData.textFree] at htf
  | case4 children transform hseq ih =>
    exfalso
    have hsome : ∀ x ∈ (children.attach.map fun c => c.1.bounding_box transform),
        x.isSome := by
      intro x hx
      obtain ⟨c, _, rfl⟩ := List.mem_map.mp hx
      apply ih c
      simp only [GraphicElementData.textFree, List.all_eq_true] at htf
      exact htf c (List.mem_attach _ _)
    have := sequenceBoxes_isSome _ hsome
    rw [hseq] at this
    simp at this
  | case5 children transform bs hseq ih =>
    simp only [GraphicElementData.bounding_box]
    simp only [List.map_subtype, List.unattach_attach] at hseq ⊢
    rw [hseq]
    simp
  | case6 graphic_group location dimensions background clip transform hseq ih =>
    exfalso
    have hsome : ∀ x ∈ (graphic_group.attach.map fun c => c.1.bounding_box transform),
        x.isSome := by
      intro x hx
      obtain ⟨c, _, rfl⟩ := List.mem_map.mp hx
      apply ih c
      simp only [GraphicElementData.textFree, List.all_eq_true] at htf
      exact htf c (List.mem_attach _ _)
    have := sequenceBoxes_isSome _ hsome
    rw [hseq] at this
    simp at this
  | case7 graphic_group location dimensions background clip transform bs hseq ih =>
    simp only [GraphicElementData.bounding_box]
    simp only [List.map_subtype, List.unattach_attach] at hseq ⊢
    rw [hseq]
    simp

/-- C10: an artboard's bounding box never degenerates to "no box": whenever
the computation returns (the `todo!()` panic on text scene nodes being the
only non-returning path, modelled by the outer `none`), the result is `Some`
box, and that box contains the bounding box of the artboard's own
transformed location/dimensions rectangle — in particular also when the
contained graphic group is empty or has no bounding box of its own; and on
any text-free artboard the computation does return. -/
theorem artboard_bounding_box_spec (graphic_group : List GraphicElementData)
    (location dimensions : IVec2) (background : Color) (clip : Bool)
    (transform : DAffine2) :
    (∀ res,
      (GraphicElementData.artboard graphic_group location dimensions background
        clip).bounding_box transform = some res →
      ∃ b, res = some b ∧
        boxContains b (Quad.applyTransform transform
          (Quad.from_box (location.as_dvec2,
            location.as_dvec2 + dimensions.as_dvec2))).bounding_box) ∧
    ((GraphicElementData.artboard graphic_group location dimensions background
        clip).textFree = true →
      ∃ res,
        (GraphicElementData.artboard graphic_group location dimensions background
          clip).bounding_box transform = some res) := by
  constructor
  · intro res hres
    simp only [GraphicElementData.bounding_box] at hres
    cases hseq : sequenceBoxes (graphic_group.attach.map fun c =>
        c.1.bounding_box transform) with
    | none =>
      rw [hseq] at hres
      cases hres
    | some boxes =>
      rw [hseq] at hres
      have hres' := Option.some.inj hres
      cases hg : reduceCombineBounds boxes with
      | none =>
        rw [hg] at hres'
        refine ⟨(Quad.applyTransform transform
          (Quad.from_box (location.as_dvec2,
            location.as_dvec2 + dimensions.as_dvec2))).bounding_box, ?_, ?_⟩
        · rw [← hres']
          simp [reduceCombineBounds]
        · exact ⟨le_refl _, le_refl _, le_refl _, le_refl _⟩
      | some g =>
        rw [hg] at hres'
        refine ⟨Quad.combine_bounds g (Quad.applyTransform transform
          (Quad.from_box (location.as_dvec2,
            location.as_dvec2 + dimensions.as_dvec2))).bounding_box, ?_, ?_⟩
        · rw [← hres']
          simp [reduceCombineBounds]
        · exact ⟨min_le_right _ _, min_le_right _ _, le_max_right _ _, le_max_right _ _⟩
  · intro htf
    have h := bounding_box_total_of_textFree _ transform htf
    exact Option.isSome_iff_exists.mp h

/-- C10 witness: the clip-enabled artboard at (0,0) with dimensions
(100,100) containing an empty group, under the identity transform. -/
theorem artboard_bounding_box_spec_witness :
    ∃ res,
      (GraphicElementData.artboard [] ⟨0, 0⟩ ⟨100, 100⟩ Color.WHITE
        true).bounding_box DAffine2.IDENTITY = some res ∧
      ∃ b, res = some b ∧
        boxContains b (Quad.applyTransform DAffine2.IDENTITY
          (Quad.from_box ((IVec2.as_dvec2 ⟨0, 0⟩),
            IVec2.as_dvec2 ⟨0, 0⟩ + IVec2.as_dvec2 ⟨100, 100⟩))).bounding_box := by
  have spec := artboard_bounding_box_spec [] ⟨0, 0⟩ ⟨100, 100⟩ Color.WHITE true
    DAffine2.IDENTITY
  have htf : (GraphicElementData.artboard [] ⟨0, 0⟩ ⟨100, 100⟩ Color.WHITE
      true).textFree = true := by
    simp [GraphicElementData.textFree]
  obtain ⟨res, hres⟩ := spec.2 htf
  obtain ⟨b, hb, hcont⟩ := spec.1 res hres
  exact ⟨res, hres, b, hb, hcont⟩

/-- C1 (amended): on a network with zero free inputs — no node consumes a
network-level input and the network-level input list is empty — whose nodes
are all already primitive (flattening, which `wrap_network_in_scope` always
performs first, is then the identity), wrapping returns the network
unchanged; consequently the operation is idempotent on such networks. -/
theorem wrap_zero_free_inputs (net : NodeNetwork) (hflat : net.isFlat)
    (hfree : freeBindings net = []) (hinputs : net.inputs = []) :
    wrap_network_in_scope net = some net := by
  have hwith : net.withInputs [] = net := by
    cases net with
    | mk i o n =>
      have : i = [] := hinputs
      rw [NodeNetwork.withInputs, this]
      rfl
  simp only [wrap_network_in_scope]
  rw [foldl_flatten_flat _ _ hflat, scanFreeInputs_eq_scanBindings,
    show ((net.nodes.map fun p => freeBindingsOfInputs p.1 p.2.inputs).flatten) =
      freeBindings net from rfl, hfree]
  simp only [scanBindings]
  rw [hwith]
  simp

/-- C1 witness: a flat two-node-free network with no free inputs, returned
unchanged by `wrap_network_in_scope`. -/
theorem wrap_zero_free_inputs_witness :
    wrap_network_in_scope
      (.mk [] [NodeOutput.new 1 0]
        [(1, .mk "N" [NodeInput.value (.f32 0) false] (.unresolved "x")
          DocumentNodeMetadata.default)]) =
    some (.mk [] [NodeOutput.new 1 0]
      [(1, .mk "N" [NodeInput.value (.f32 0) false] (.unresolved "x")
        DocumentNodeMetadata.default)]) := by
  apply wrap_zero_free_inputs
  · intro p hp inner
    simp only [NodeNetwork.nodes, List.mem_singleton] at hp
    subst hp
    intro hcon
    cases hcon
  · rfl
  · rfl

/-- The inner (nested) network of the C1 counterexample: a single primitive
node, no free inputs. -/
def c1InnerNetwork : NodeNetwork :=
  .mk [] [NodeOutput.new 0 0]
    [(0, .mk "P" [NodeInput.value (.f32 0) false] (.unresolved "p")
      DocumentNodeMetadata.default)]

/-- The C1 counterexample input: a network with zero free inputs whose only
node wraps `c1InnerNetwork` as a nested-network implementation. -/
def c1NestedNetwork : NodeNetwork :=
  .mk [] [NodeOutput.new 1 0]
    [(1, .mk "N" [] (.network c1InnerNetwork) DocumentNodeMetadata.default)]

/-- What `wrap_network_in_scope` actually returns on `c1NestedNetwork`: the
flattened network (the nested node was inlined and re-identified). -/
def c1FlattenedNetwork : NodeNetwork :=
  .mk [] [NodeOutput.new 2 0]
    [(2, .mk "P" [NodeInput.value (.f32 0) false] (.unresolved "p")
      DocumentNodeMetadata.default)]

/-- C1 counterexample: `c1NestedNetwork` has zero free inputs (no node
consumes a network-level input, at either nesting level, and its input list
is empty), yet `wrap_network_in_scope` does not return it unchanged — the
unconditional flattening pass replaces its nested-network node. -/
theorem wrap_not_identity_on_zero_free_inputs :
    freeBindings c1NestedNetwork = [] ∧
    c1NestedNetwork.inputs = [] ∧
    freeBindings c1InnerNetwork = [] ∧
    wrap_network_in_scope c1NestedNetwork = some c1FlattenedNetwork ∧
    c1FlattenedNetwork ≠ c1NestedNetwork := by
  refine ⟨rfl, rfl, rfl, rfl, fun hcon => ?_⟩
  have hids := congrArg (fun n => n.nodes.map Prod.fst) hcon
  simp [c1FlattenedNetwork, c1NestedNetwork, NodeNetwork.nodes] at hids

/-- C5: on a (flattened) network, the free-input scan of
`wrap_network_in_scope` hits its `assert_eq` — modelled as the `none`
result — exactly on mixed declared types: if two free-input references
carry different declared types the wrap fails, and if all references carry
the identical declared type the assertion never fires and wrapping
returns a network. -/
theorem wrap_free_input_type_assertion (net : NodeNetwork) (hflat : net.isFlat) :
    ((∃ p ∈ freeBindings net, ∃ q ∈ freeBindings net, p.2 ≠ q.2) →
      wrap_network_in_scope net = Option.none) ∧
    ((∀ p ∈ freeBindings net, ∀ q ∈ freeBindings net, p.2 = q.2) →
      wrap_network_in_scope net ≠ Option.none) := by
  constructor
  · intro hmix
    simp only [wrap_network_in_scope]
    rw [foldl_flatten_flat _ _ hflat, scanFreeInputs_eq_scanBindings,
      show ((net.nodes.map fun p => freeBindingsOfInputs p.1 p.2.inputs).flatten) =
        freeBindings net from rfl,
      scanBindings_none_of_two_different _ hmix]
  · intro huni
    simp only [wrap_network_in_scope]
    rw [foldl_flatten_flat _ _ hflat, scanFreeInputs_eq_scanBindings,
      show ((net.nodes.map fun p => freeBindingsOfInputs p.1 p.2.inputs).flatten) =
        freeBindings net from rfl]
    cases hfb : freeBindings net with
    | nil =>
      simp [scanBindings]
    | cons hd rest =>
      obtain ⟨id0, ty0⟩ := hd
      have huni' : ∀ p ∈ rest, p.2 = ty0 :=
        fun p hp => huni p (hfb ▸ List.mem_cons_of_mem _ hp) (id0, ty0)
          (hfb ▸ List.mem_cons_self _ _)
      rw [show scanBindings ((id0, ty0) :: rest) Option.none [] =
          scanBindings rest (some (.network ty0)) [id0] from rfl,
        scanBindings_uniform rest ty0 [id0] huni']
      intro hcon
      exact Option.noConfusion hcon

/-- C5 witness: the assertion theorem applied to two concrete flat
networks — one mixing two declared free-input types (wrap fails), one with
a single free-input type (wrap succeeds). -/
theorem wrap_free_input_type_assertion_witness :
    wrap_network_in_scope
      (.mk [] []
        [(1, .mk "A" [NodeInput.network (.concrete "X")] (.unresolved "a")
            DocumentNodeMetadata.default),
         (2, .mk "B" [NodeInput.network (.concrete "Y")] (.unresolved "b")
            DocumentNodeMetadata.default)]) = Option.none ∧
    wrap_network_in_scope
      (.mk [] []
        [(1, .mk "A" [NodeInput.network (.concrete "X")] (.unresolved "a")
            DocumentNodeMetadata.default),
         (2, .mk "B" [NodeInput.network (.concrete "X")] (.unresolved "b")
            DocumentNodeMetadata.default)]) ≠ Option.none := by
  constructor
  · apply (wrap_free_input_type_assertion _ ?_).1
    · exact ⟨(1, .concrete "X"), by simp [freeBindings, freeBindingsOfInputs,
        NodeNetwork.nodes, DocumentNode.inputs],
        (2, .concrete "Y"), by simp [freeBindings, freeBindingsOfInputs,
        NodeNetwork.nodes, DocumentNode.inputs], by simp⟩
    · intro p hp inner
      simp only [NodeNetwork.nodes, List.mem_cons, List.mem_singleton,
        List.not_mem_nil, or_false] at hp
      rcases hp with h | h <;> subst h <;> intro hcon <;> cases hcon
  · apply (wrap_free_input_type_assertion _ ?_).2
    · intro p hp q hq
      simp [freeBindings, freeBindingsOfInputs, NodeNetwork.nodes,
        DocumentNode.inputs] at hp hq
      rcases hp with hp | hp <;> rcases hq with hq | hq <;>
        subst hp <;> subst hq <;> rfl
    · intro p hp inner
      simp only [NodeNetwork.nodes, List.mem_cons, List.mem_singleton,
        List.not_mem_nil, or_false] at hp
      rcases hp with h | h <;> subst h <;> intro hcon <;> cases hcon

/-- C4: on a (flattened) network with exactly one free-input reference of
declared type `ty`, `wrap_network_in_scope` yields the 3-node wrapper
(begin-scope node, inner flattened-network node, end-scope node): its node
map has exactly 3 entries, its output list has exactly one entry, and its
first node (id 0, the "Begin Scope" node) has a single input equal to the
original free-input type. -/
theorem wrap_single_free_input (net : NodeNetwork) (id0 : NodeId) (ty : Ty)
    (hflat : net.isFlat) (hone : freeBindings net = [(id0, ty)]) :
    ∃ wrapped, wrap_network_in_scope net = some wrapped ∧
      wrapped.nodes.length = 3 ∧
      wrapped.outputs = [NodeOutput.new 2 0] ∧
      ∃ first, wrapped.nodes.get? 0 = some (0, first) ∧
        first.inputs = [NodeInput.network ty] ∧
        first.name = "Begin Scope" := by
  simp only [wrap_network_in_scope]
  rw [foldl_flatten_flat _ _ hflat, scanFreeInputs_eq_scanBindings,
    show ((net.nodes.map fun p => freeBindingsOfInputs p.1 p.2.inputs).flatten) =
      freeBindings net from rfl, hone]
  exact ⟨_, rfl, rfl, rfl, _, rfl, rfl, rfl⟩

/-- C4 witness: the wrapper theorem applied to a concrete one-node network
consuming a single free input. -/
theorem wrap_single_free_input_witness :
    ∃ wrapped,
      wrap_network_in_scope
        (.mk [] [NodeOutput.new 1 0]
          [(1, .mk "N"
              [NodeInput.network (.concrete "ImageFrame<Color>"),
               NodeInput.value (.f32 0) false]
              (.unresolved "n") DocumentNodeMetadata.default)]) = some wrapped ∧
      wrapped.nodes.length = 3 ∧
      wrapped.outputs = [NodeOutput.new 2 0] ∧
      ∃ first, wrapped.nodes.get? 0 = some (0, first) ∧
        first.inputs = [NodeInput.network (.concrete "ImageFrame<Color>")] ∧
        first.name = "Begin Scope" := by
  apply wrap_single_free_input _ 1 (.concrete "ImageFrame<Color>")
  · intro p hp inner
    simp only [NodeNetwork.nodes, List.mem_singleton] at hp
    subst hp
    intro hcon
    cases hcon
  · rfl
